import Mathlib

/-!
Verification development for the asynchronous-start PMSM electromagnetic
calculation engine (`PMSM_Calculator.py` and its modular copies
`parameters.py` / `steel_tables.py`).

The Python source computes with IEEE floating point and transcendental
functions; the shallow embedding below models every numeric value as a real
number and every Python float operation as the corresponding exact real
operation.  Dictionary lookups that can raise `KeyError` are modelled with
`Option`, and the `try/except` wrapper of `calculate_all` is modelled by the
explicit success flag of `CalcOutcome`.  Mutable engine attributes are
modelled by threading a `Derived` record through the eleven stages, starting
from an arbitrary initial record.
-/

noncomputable section

namespace PMSM

open Real

/-- Embedding of Python's `str.upper()` (ASCII semantics, which is what the
source relies on for its `'Y'`/`'N'`/`'J'` flags). -/
def strUpper (s : String) : String := String.mk (s.data.map Char.toUpper)

/-! ## Steel data tables (`SteelDataTables.__init__`) -/

/-- The shared flux-density sample grid `B_data` (37 points, 0.40 .. 2.20 T). -/
def B_data : List ℝ :=
  [0.40, 0.45, 0.50, 0.55, 0.60, 0.65, 0.70, 0.75, 0.80, 0.85,
   0.90, 0.95, 1.00, 1.05, 1.10, 1.15, 1.20, 1.25, 1.30, 1.35,
   1.40, 1.45, 1.50, 1.55, 1.60, 1.65, 1.70, 1.75, 1.80, 1.85,
   1.90, 1.95, 2.00, 2.05, 2.10, 2.15, 2.20]

def H_data_1 : List ℝ :=
  [75, 88, 102, 118, 135, 155, 178, 205, 236, 272,
   314, 363, 420, 486, 563, 653, 758, 880, 1023, 1190,
   1385, 1614, 1882, 2196, 2564, 2995, 3500, 4092, 4785, 5595,
   6540, 7642, 8925, 10420, 12160, 14180, 16530]

def H_data_2 : List ℝ :=
  [70, 82, 95, 110, 127, 146, 168, 193, 222, 255,
   293, 337, 388, 447, 516, 596, 689, 798, 925, 1073,
   1246, 1447, 1682, 1955, 2272, 2639, 3065, 3559, 4132, 4796,
   5565, 6453, 7477, 8658, 10020, 11590, 13400]

def H_data_3 : List ℝ :=
  [78, 92, 107, 124, 143, 164, 188, 216, 247, 283,
   324, 371, 425, 488, 561, 646, 745, 860, 994, 1150,
   1331, 1540, 1782, 2062, 2386, 2760, 3193, 3693, 4272, 4942,
   5718, 6616, 7655, 8856, 10245, 11850, 13700]

def H_data_4 : List ℝ :=
  [85, 100, 117, 136, 157, 181, 208, 239, 274, 314,
   360, 413, 474, 544, 625, 719, 828, 954, 1100, 1268,
   1462, 1686, 1945, 2244, 2590, 2989, 3450, 3982, 4596, 5305,
   6123, 7068, 8160, 9424, 10885, 12575, 14530]

def H_data_5 : List ℝ :=
  [80, 95, 110, 125, 140, 160, 180, 200, 225, 250,
   280, 315, 355, 400, 450, 510, 580, 660, 750, 850,
   970, 1100, 1250, 1420, 1620, 1840, 2100, 2400, 2750, 3150,
   3600, 4100, 4700, 5400, 6200, 7100, 8100]

def P_data_1 : List ℝ :=
  [0.4, 0.6, 0.8, 1.0, 1.3, 1.6, 2.0, 2.5, 3.1, 3.8,
   4.6, 5.5, 6.6, 7.9, 9.4, 11.2, 13.3, 15.7, 18.5, 21.7,
   25.4, 29.6, 34.4, 39.9, 46.2, 53.3, 61.4, 70.5, 80.8, 92.4,
   105.5, 120.2, 136.8, 155.5, 176.5, 200.2, 226.8]

def P_data_2 : List ℝ :=
  [0.3, 0.5, 0.7, 0.9, 1.2, 1.5, 1.9, 2.4, 2.9, 3.6,
   4.3, 5.2, 6.2, 7.4, 8.8, 10.4, 12.3, 14.5, 17.0, 19.9,
   23.2, 27.0, 31.3, 36.2, 41.8, 48.2, 55.4, 63.6, 72.8, 83.2,
   94.9, 108.1, 122.9, 139.5, 158.2, 179.2, 202.8]

def P_data_3 : List ℝ :=
  [0.45, 0.65, 0.85, 1.1, 1.4, 1.7, 2.1, 2.6, 3.2, 3.9,
   4.7, 5.6, 6.7, 8.0, 9.5, 11.3, 13.4, 15.8, 18.6, 21.8,
   25.5, 29.7, 34.5, 40.0, 46.3, 53.4, 61.5, 70.7, 81.1, 92.8,
   106.0, 120.8, 137.4, 156.0, 176.8, 200.1, 226.2]

def P_data_4 : List ℝ :=
  [0.5, 0.7, 0.9, 1.2, 1.5, 1.9, 2.3, 2.8, 3.4, 4.1,
   4.9, 5.8, 6.9, 8.2, 9.7, 11.5, 13.6, 16.0, 18.8, 22.0,
   25.7, 29.9, 34.7, 40.2, 46.5, 53.7, 61.9, 71.2, 81.7, 93.6,
   107.0, 122.1, 139.0, 158.0, 179.3, 203.2, 230.0]

def P_data_5 : List ℝ :=
  [0.5, 0.7, 0.9, 1.2, 1.5, 1.9, 2.4, 3.0, 3.7, 4.5,
   5.4, 6.5, 7.8, 9.3, 11.0, 12.9, 15.1, 17.6, 20.4, 23.6,
   27.2, 31.2, 35.7, 40.7, 46.2, 52.3, 59.0, 66.3, 74.3, 83.0,
   92.5, 102.8, 114.0, 126.1, 139.2, 153.3, 168.5]

/-- The Python dict `self.H_data`; indexing an undefined grade raises
`KeyError`, modelled by `none`.  Grade selectors are Python ints that live in
float arithmetic, hence `ℝ` here. -/
def H_data (steel_type : ℝ) : Option (List ℝ) :=
  if steel_type = 1 then some H_data_1
  else if steel_type = 2 then some H_data_2
  else if steel_type = 3 then some H_data_3
  else if steel_type = 4 then some H_data_4
  else if steel_type = 5 then some H_data_5
  else none

/-- The Python dict `self.P_data`. -/
def P_data (steel_type : ℝ) : Option (List ℝ) :=
  if steel_type = 1 then some P_data_1
  else if steel_type = 2 then some P_data_2
  else if steel_type = 3 then some P_data_3
  else if steel_type = 4 then some P_data_4
  else if steel_type = 5 then some P_data_5
  else none

/-! ## 1-D linear interpolation (`SteelDataTables.linear_interpolation`)

The source keeps abscissae and ordinates in two parallel arrays; the
embedding zips them into one list of points. `npInterpAux` is the interior
case delegated to `np.interp`. -/

def npInterpAux (x0 y0 : ℝ) : List (ℝ × ℝ) → ℝ → ℝ
  | [], _ => y0
  | (x1, y1) :: rest, x =>
      if x ≤ x1 then y0 + (y1 - y0) * (x - x0) / (x1 - x0)
      else npInterpAux x1 y1 rest x

/-- `linear_interpolation(x_data, y_data, x)`: clamp below the first sample,
clamp above the last sample, interior handled by `np.interp`. -/
def linear_interpolation (pts : List (ℝ × ℝ)) (x : ℝ) : ℝ :=
  match pts with
  | [] => 0
  | (x0, y0) :: rest =>
      if x ≤ x0 then y0
      else if (rest.getLastD (x0, y0)).1 ≤ x then (rest.getLastD (x0, y0)).2
      else npInterpAux x0 y0 rest x

/-- `get_BH_curve(B, steel_type)`; `none` models the `KeyError` on an
undefined grade. -/
def get_BH_curve (B : ℝ) (steel_type : ℝ) : Option ℝ :=
  (H_data steel_type).map fun h => linear_interpolation (B_data.zip h) B

/-- `get_iron_loss(B, steel_type)`. -/
def get_iron_loss (B : ℝ) (steel_type : ℝ) : Option ℝ :=
  (P_data steel_type).map fun h => linear_interpolation (B_data.zip h) B

/-! ### Generic facts about `linear_interpolation`

`SortedPts` states that the abscissae are strictly increasing (true of
`B_data`); `MonoPts` states that the ordinates are non-decreasing (true of
every B-H and loss table). -/

def SortedPts (pts : List (ℝ × ℝ)) : Prop :=
  List.Chain' (fun q r => q.1 < r.1) pts

def MonoPts (pts : List (ℝ × ℝ)) : Prop :=
  List.Chain' (fun q r => q.2 ≤ r.2) pts

lemma getLastD_mem (a : ℝ × ℝ) (l : List (ℝ × ℝ)) : l.getLastD a ∈ a :: l := by
  induction l generalizing a with
  | nil => simp
  | cons b l2 ih =>
      rw [List.getLastD_cons]
      exact List.mem_cons_of_mem a (ih b)

lemma getLastD_snd_ge (a : ℝ × ℝ) (l : List (ℝ × ℝ))
    (hm : MonoPts (a :: l)) : a.2 ≤ (l.getLastD a).2 := by
  induction l generalizing a with
  | nil => simp
  | cons b l2 ih =>
      rw [List.getLastD_cons]
      rw [MonoPts, List.chain'_cons] at hm
      exact le_trans hm.1 (ih b hm.2)

lemma getLastD_fst_gt (a b : ℝ × ℝ) (l : List (ℝ × ℝ))
    (hs : SortedPts (a :: b :: l)) : a.1 < ((b :: l).getLastD a).1 := by
  rw [List.getLastD_cons]
  rw [SortedPts, List.chain'_cons] at hs
  induction l generalizing a b with
  | nil => simpa using hs.1
  | cons c l2 ih =>
      rw [List.getLastD_cons]
      have hs2 := hs.2
      rw [List.chain'_cons] at hs2
      exact lt_trans hs.1 (ih b c hs2)

lemma npInterpAux_ge (x0 y0 : ℝ) (l : List (ℝ × ℝ)) (x : ℝ)
    (hs : SortedPts ((x0, y0) :: l)) (hm : MonoPts ((x0, y0) :: l))
    (hx : x0 < x) : y0 ≤ npInterpAux x0 y0 l x := by
  induction l generalizing x0 y0 with
  | nil => simp [npInterpAux]
  | cons q l2 ih =>
      obtain ⟨x1, y1⟩ := q
      rw [SortedPts, List.chain'_cons] at hs
      rw [MonoPts, List.chain'_cons] at hm
      have h01 : x0 < x1 := hs.1
      have hy01 : y0 ≤ y1 := hm.1
      rw [npInterpAux]
      split
      · have hnum : 0 ≤ (y1 - y0) * (x - x0) / (x1 - x0) :=
          div_nonneg (mul_nonneg (by linarith) (by linarith)) (by linarith)
        linarith
      · next hgt =>
          push_neg at hgt
          exact le_trans hy01 (ih x1 y1 hs.2 hm.2 hgt)

lemma npInterpAux_le_seg (x0 y0 x1 y1 : ℝ) (x : ℝ) (h01 : x0 < x1)
    (hy01 : y0 ≤ y1) (hx0 : x0 < x) (hx1 : x ≤ x1) :
    y0 + (y1 - y0) * (x - x0) / (x1 - x0) ≤ y1 := by
  have key : (y1 - y0) * (x - x0) ≤ (y1 - y0) * (x1 - x0) := by nlinarith
  have h2 : (y1 - y0) * (x - x0) / (x1 - x0) ≤ y1 - y0 := by
    rw [div_le_iff (by linarith)]
    nlinarith
  linarith

lemma npInterpAux_le (x0 y0 : ℝ) (l : List (ℝ × ℝ)) (x : ℝ)
    (hs : SortedPts ((x0, y0) :: l)) (hm : MonoPts ((x0, y0) :: l))
    (hx : x0 < x) : npInterpAux x0 y0 l x ≤ (l.getLastD (x0, y0)).2 := by
  induction l generalizing x0 y0 with
  | nil => simp [npInterpAux]
  | cons q l2 ih =>
      obtain ⟨x1, y1⟩ := q
      rw [SortedPts, List.chain'_cons] at hs
      rw [MonoPts, List.chain'_cons] at hm
      have h01 : x0 < x1 := hs.1
      have hy01 : y0 ≤ y1 := hm.1
      rw [npInterpAux, List.getLastD_cons]
      split
      · next hle =>
          have hseg := npInterpAux_le_seg x0 y0 x1 y1 x h01 hy01 hx hle
          have hlast : y1 ≤ (l2.getLastD (x1, y1)).2 := getLastD_snd_ge (x1, y1) l2 hm.2
          linarith
      · next hgt =>
          push_neg at hgt
          exact ih x1 y1 hs.2 hm.2 hgt

lemma npInterpAux_mono (x0 y0 : ℝ) (l : List (ℝ × ℝ)) (x xp : ℝ)
    (hs : SortedPts ((x0, y0) :: l)) (hm : MonoPts ((x0, y0) :: l))
    (hx : x0 < x) (hxx : x ≤ xp) :
    npInterpAux x0 y0 l x ≤ npInterpAux x0 y0 l xp := by
  induction l generalizing x0 y0 with
  | nil => simp [npInterpAux]
  | cons q l2 ih =>
      obtain ⟨x1, y1⟩ := q
      rw [SortedPts, List.chain'_cons] at hs
      rw [MonoPts, List.chain'_cons] at hm
      have h01 : x0 < x1 := hs.1
      have hy01 : y0 ≤ y1 := hm.1
      rw [npInterpAux, npInterpAux]
      split
      · next hxle =>
          split
          · next hxple =>
              have hmul : (y1 - y0) * (x - x0) ≤ (y1 - y0) * (xp - x0) := by
                nlinarith
              have hratio : (y1 - y0) * (x - x0) / (x1 - x0) ≤
                  (y1 - y0) * (xp - x0) / (x1 - x0) :=
                (div_le_div_right (by linarith)).mpr hmul
              linarith
          · next hxpgt =>
              push_neg at hxpgt
              have hseg := npInterpAux_le_seg x0 y0 x1 y1 x h01 hy01 hx hxle
              have hge := npInterpAux_ge x1 y1 l2 xp hs.2 hm.2 hxpgt
              linarith
      · next hxgt =>
          push_neg at hxgt
          have hxpgt : x1 < xp := lt_of_lt_of_le hxgt hxx
          rw [if_neg (by push_neg; exact hxpgt)]
          exact ih x1 y1 hs.2 hm.2 hxgt

/-- Clamp below the first sample. -/
lemma linear_interpolation_clamp_lo (x0 y0 : ℝ) (l : List (ℝ × ℝ)) (x : ℝ)
    (hx : x ≤ x0) : linear_interpolation ((x0, y0) :: l) x = y0 := by
  rw [linear_interpolation, if_pos hx]

/-- Clamp above the last sample. -/
lemma linear_interpolation_clamp_hi (x0 y0 : ℝ) (l : List (ℝ × ℝ)) (x : ℝ)
    (hs : SortedPts ((x0, y0) :: l)) (hx : (l.getLastD (x0, y0)).1 ≤ x) :
    linear_interpolation ((x0, y0) :: l) x = (l.getLastD (x0, y0)).2 := by
  rw [linear_interpolation]
  cases l with
  | nil =>
      simp only [List.getLastD] at hx ⊢
      split <;> simp [if_pos hx]
  | cons q l2 =>
      have hgt := getLastD_fst_gt (x0, y0) q l2 hs
      rw [if_neg (by push_neg; exact lt_of_lt_of_le hgt hx), if_pos hx]

/-- The interpolated value never drops below the first ordinate. -/
lemma linear_interpolation_ge_first (x0 y0 : ℝ) (l : List (ℝ × ℝ)) (x : ℝ)
    (hs : SortedPts ((x0, y0) :: l)) (hm : MonoPts ((x0, y0) :: l)) :
    y0 ≤ linear_interpolation ((x0, y0) :: l) x := by
  rw [linear_interpolation]
  split
  · exact le_refl y0
  · next hgt =>
      push_neg at hgt
      split
      · exact getLastD_snd_ge (x0, y0) l hm
      · exact npInterpAux_ge x0 y0 l x hs hm hgt

/-- The interpolated value never exceeds the last ordinate. -/
lemma linear_interpolation_le_last (x0 y0 : ℝ) (l : List (ℝ × ℝ)) (x : ℝ)
    (hs : SortedPts ((x0, y0) :: l)) (hm : MonoPts ((x0, y0) :: l)) :
    linear_interpolation ((x0, y0) :: l) x ≤ (l.getLastD (x0, y0)).2 := by
  rw [linear_interpolation]
  split
  · exact getLastD_snd_ge (x0, y0) l hm
  · next hgt =>
      push_neg at hgt
      split
      · exact le_refl _
      · exact npInterpAux_le x0 y0 l x hs hm hgt

/-- Monotonicity of the interpolation in its argument. -/
lemma linear_interpolation_mono (x0 y0 : ℝ) (l : List (ℝ × ℝ)) (x xp : ℝ)
    (hs : SortedPts ((x0, y0) :: l)) (hm : MonoPts ((x0, y0) :: l))
    (hxx : x ≤ xp) :
    linear_interpolation ((x0, y0) :: l) x ≤ linear_interpolation ((x0, y0) :: l) xp := by
  by_cases h1 : x ≤ x0
  · rw [linear_interpolation_clamp_lo x0 y0 l x h1]
    exact linear_interpolation_ge_first x0 y0 l xp hs hm
  · push_neg at h1
    by_cases h2 : (l.getLastD (x0, y0)).1 ≤ x
    · rw [linear_interpolation_clamp_hi x0 y0 l x hs h2,
        linear_interpolation_clamp_hi x0 y0 l xp hs (le_trans h2 hxx)]
    · push_neg at h2
      rw [linear_interpolation, if_neg (by push_neg; exact h1),
        if_neg (by push_neg; exact h2)]
      by_cases h3 : (l.getLastD (x0, y0)).1 ≤ xp
      · rw [linear_interpolation_clamp_hi x0 y0 l xp hs h3]
        exact npInterpAux_le x0 y0 l x hs hm h1
      · push_neg at h3
        rw [linear_interpolation, if_neg (by push_neg; exact lt_of_lt_of_le h1 hxx),
          if_neg (by push_neg; exact h3)]
        exact npInterpAux_mono x0 y0 l x xp hs hm h1 hxx

lemma npInterpAux_affine (a b x0 y0 : ℝ) (l : List (ℝ × ℝ)) (x : ℝ)
    (hs : SortedPts ((x0, y0) :: l))
    (hgrid : ∀ q ∈ (x0, y0) :: l, a * q.1 + b ≤ q.2)
    (hx : x0 < x) (hlast : x ≤ (l.getLastD (x0, y0)).1) :
    a * x + b ≤ npInterpAux x0 y0 l x := by
  induction l generalizing x0 y0 with
  | nil =>
      simp only [List.getLastD] at hlast
      exact absurd hlast (by push_neg; exact hx)
  | cons q l2 ih =>
      obtain ⟨x1, y1⟩ := q
      rw [SortedPts, List.chain'_cons] at hs
      have h01 : x0 < x1 := hs.1
      have hg0 : a * x0 + b ≤ y0 := hgrid (x0, y0) (by simp)
      have hg1 : a * x1 + b ≤ y1 := hgrid (x1, y1) (by simp)
      rw [npInterpAux]
      split
      · next hle =>
          have key : (a * x + b - y0) * (x1 - x0) ≤ (y1 - y0) * (x - x0) := by
            nlinarith [mul_nonneg (by linarith : (0:ℝ) ≤ y0 - (a * x0 + b))
                (by linarith : (0:ℝ) ≤ x1 - x),
              mul_nonneg (by linarith : (0:ℝ) ≤ y1 - (a * x1 + b))
                (by linarith : (0:ℝ) ≤ x - x0)]
          have h2 : a * x + b - y0 ≤ (y1 - y0) * (x - x0) / (x1 - x0) := by
            rw [le_div_iff (by linarith)]
            exact key
          linarith
      · next hgt =>
          push_neg at hgt
          rw [List.getLastD_cons] at hlast
          exact ih x1 y1 hs.2 (fun q hq => hgrid q (List.mem_cons_of_mem _ hq)) hgt hlast

/-- If an affine function with non-negative slope lies below every sample
point, it lies below the whole interpolated curve up to the last abscissa. -/
lemma linear_interpolation_affine (a b x0 y0 : ℝ) (l : List (ℝ × ℝ)) (x : ℝ)
    (hs : SortedPts ((x0, y0) :: l))
    (hgrid : ∀ q ∈ (x0, y0) :: l, a * q.1 + b ≤ q.2)
    (ha : 0 ≤ a) (hlast : x ≤ (l.getLastD (x0, y0)).1) :
    a * x + b ≤ linear_interpolation ((x0, y0) :: l) x := by
  rw [linear_interpolation]
  split
  · next hle =>
      have hg0 : a * x0 + b ≤ y0 := hgrid (x0, y0) (by simp)
      nlinarith
  · next hgt =>
      push_neg at hgt
      split
      · next hge =>
          have hx : x = (l.getLastD (x0, y0)).1 := le_antisymm hlast hge
          have := hgrid (l.getLastD (x0, y0)) (getLastD_mem (x0, y0) l)
          rw [hx]
          exact this
      · exact npInterpAux_affine a b x0 y0 l x hs hgrid hgt hlast

/-! ### Shape, sortedness and monotonicity of the ten steel tables -/

lemma zipH1 : B_data.zip H_data_1 = ((0.40 : ℝ), (75 : ℝ)) :: (B_data.tail.zip H_data_1.tail) := rfl

lemma lastH1 : ((B_data.tail.zip H_data_1.tail).getLastD ((0.40 : ℝ), (75 : ℝ))) = (2.20, 16530) := rfl

lemma sortedH1 : SortedPts (B_data.zip H_data_1) := by
  norm_num [SortedPts, B_data, H_data_1, List.zip_cons_cons, List.chain'_cons, List.zip_nil_right]

lemma monoH1 : MonoPts (B_data.zip H_data_1) := by
  norm_num [MonoPts, B_data, H_data_1, List.zip_cons_cons, List.chain'_cons, List.zip_nil_right]

lemma zipH2 : B_data.zip H_data_2 = ((0.40 : ℝ), (70 : ℝ)) :: (B_data.tail.zip H_data_2.tail) := rfl

lemma lastH2 : ((B_data.tail.zip H_data_2.tail).getLastD ((0.40 : ℝ), (70 : ℝ))) = (2.20, 13400) := rfl

lemma sortedH2 : SortedPts (B_data.zip H_data_2) := by
  norm_num [SortedPts, B_data, H_data_2, List.zip_cons_cons, List.chain'_cons, List.zip_nil_right]

lemma monoH2 : MonoPts (B_data.zip H_data_2) := by
  norm_num [MonoPts, B_data, H_data_2, List.zip_cons_cons, List.chain'_cons, List.zip_nil_right]

lemma zipH3 : B_data.zip H_data_3 = ((0.40 : ℝ), (78 : ℝ)) :: (B_data.tail.zip H_data_3.tail) := rfl

lemma lastH3 : ((B_data.tail.zip H_data_3.tail).getLastD ((0.40 : ℝ), (78 : ℝ))) = (2.20, 13700) := rfl

lemma sortedH3 : SortedPts (B_data.zip H_data_3) := by
  norm_num [SortedPts, B_data, H_data_3, List.zip_cons_cons, List.chain'_cons, List.zip_nil_right]

lemma monoH3 : MonoPts (B_data.zip H_data_3) := by
  norm_num [MonoPts, B_data, H_data_3, List.zip_cons_cons, List.chain'_cons, List.zip_nil_right]

lemma zipH4 : B_data.zip H_data_4 = ((0.40 : ℝ), (85 : ℝ)) :: (B_data.tail.zip H_data_4.tail) := rfl

lemma lastH4 : ((B_data.tail.zip H_data_4.tail).getLastD ((0.40 : ℝ), (85 : ℝ))) = (2.20, 14530) := rfl

lemma sortedH4 : SortedPts (B_data.zip H_data_4) := by
  norm_num [SortedPts, B_data, H_data_4, List.zip_cons_cons, List.chain'_cons, List.zip_nil_right]

lemma monoH4 : MonoPts (B_data.zip H_data_4) := by
  norm_num [MonoPts, B_data, H_data_4, List.zip_cons_cons, List.chain'_cons, List.zip_nil_right]

lemma zipH5 : B_data.zip H_data_5 = ((0.40 : ℝ), (80 : ℝ)) :: (B_data.tail.zip H_data_5.tail) := rfl

lemma lastH5 : ((B_data.tail.zip H_data_5.tail).getLastD ((0.40 : ℝ), (80 : ℝ))) = (2.20, 8100) := rfl

lemma sortedH5 : SortedPts (B_data.zip H_data_5) := by
  norm_num [SortedPts, B_data, H_data_5, List.zip_cons_cons, List.chain'_cons, List.zip_nil_right]

lemma monoH5 : MonoPts (B_data.zip H_data_5) := by
  norm_num [MonoPts, B_data, H_data_5, List.zip_cons_cons, List.chain'_cons, List.zip_nil_right]

lemma zipP1 : B_data.zip P_data_1 = ((0.40 : ℝ), (0.4 : ℝ)) :: (B_data.tail.zip P_data_1.tail) := rfl

lemma lastP1 : ((B_data.tail.zip P_data_1.tail).getLastD ((0.40 : ℝ), (0.4 : ℝ))) = (2.20, 226.8) := rfl

lemma sortedP1 : SortedPts (B_data.zip P_data_1) := by
  norm_num [SortedPts, B_data, P_data_1, List.zip_cons_cons, List.chain'_cons, List.zip_nil_right]

lemma monoP1 : MonoPts (B_data.zip P_data_1) := by
  norm_num [MonoPts, B_data, P_data_1, List.zip_cons_cons, List.chain'_cons, List.zip_nil_right]

lemma zipP2 : B_data.zip P_data_2 = ((0.40 : ℝ), (0.3 : ℝ)) :: (B_data.tail.zip P_data_2.tail) := rfl

lemma lastP2 : ((B_data.tail.zip P_data_2.tail).getLastD ((0.40 : ℝ), (0.3 : ℝ))) = (2.20, 202.8) := rfl

lemma sortedP2 : SortedPts (B_data.zip P_data_2) := by
  norm_num [SortedPts, B_data, P_data_2, List.zip_cons_cons, List.chain'_cons, List.zip_nil_right]

lemma monoP2 : MonoPts (B_data.zip P_data_2) := by
  norm_num [MonoPts, B_data, P_data_2, List.zip_cons_cons, List.chain'_cons, List.zip_nil_right]

lemma zipP3 : B_data.zip P_data_3 = ((0.40 : ℝ), (0.45 : ℝ)) :: (B_data.tail.zip P_data_3.tail) := rfl

lemma lastP3 : ((B_data.tail.zip P_data_3.tail).getLastD ((0.40 : ℝ), (0.45 : ℝ))) = (2.20, 226.2) := rfl

lemma sortedP3 : SortedPts (B_data.zip P_data_3) := by
  norm_num [SortedPts, B_data, P_data_3, List.zip_cons_cons, List.chain'_cons, List.zip_nil_right]

lemma monoP3 : MonoPts (B_data.zip P_data_3) := by
  norm_num [MonoPts, B_data, P_data_3, List.zip_cons_cons, List.chain'_cons, List.zip_nil_right]

lemma zipP4 : B_data.zip P_data_4 = ((0.40 : ℝ), (0.5 : ℝ)) :: (B_data.tail.zip P_data_4.tail) := rfl

lemma lastP4 : ((B_data.tail.zip P_data_4.tail).getLastD ((0.40 : ℝ), (0.5 : ℝ))) = (2.20, 230.0) := rfl

lemma sortedP4 : SortedPts (B_data.zip P_data_4) := by
  norm_num [SortedPts, B_data, P_data_4, List.zip_cons_cons, List.chain'_cons, List.zip_nil_right]

lemma monoP4 : MonoPts (B_data.zip P_data_4) := by
  norm_num [MonoPts, B_data, P_data_4, List.zip_cons_cons, List.chain'_cons, List.zip_nil_right]

lemma zipP5 : B_data.zip P_data_5 = ((0.40 : ℝ), (0.5 : ℝ)) :: (B_data.tail.zip P_data_5.tail) := rfl

lemma lastP5 : ((B_data.tail.zip P_data_5.tail).getLastD ((0.40 : ℝ), (0.5 : ℝ))) = (2.20, 168.5) := rfl

lemma sortedP5 : SortedPts (B_data.zip P_data_5) := by
  norm_num [SortedPts, B_data, P_data_5, List.zip_cons_cons, List.chain'_cons, List.zip_nil_right]

lemma monoP5 : MonoPts (B_data.zip P_data_5) := by
  norm_num [MonoPts, B_data, P_data_5, List.zip_cons_cons, List.chain'_cons, List.zip_nil_right]


/-! ## Slot-leakage specific permeance (`SlotLeakageCalculator`) -/

/-- `calculate_slot_leakage(CX, h02, b02, h2, d1, d2, h22, QSX, B12, KRS1,
KRS2, KRS3)`: dispatch over the four rotor-slot profiles, with the
`h02/b02` fallback for any other tag. -/
def calculate_slot_leakage (CX h02 b02 h2 d1 d2 h22 QSX B12 KRS1 KRS2 KRS3 : ℝ) : ℝ :=
  if CX = 1 then
    if |B12 - 1.0| ≤ 1e-4 then
      (4.0 * QSX ^ 3 / 3.0 + 3.0 * π * QSX ^ 2 / 2.0 +
        4.816 * QSX + 1.5377) / (2.0 * QSX + π / 2.0) ^ 2 + h02 / b02
    else
      QSX * (KRS1 + KRS2 + KRS3) /
        (π * (1.0 + B12 ^ 2) / (8.0 * QSX) + (1.0 + B12) / 2.0) ^ 2 +
        h02 / b02
  else if CX = 2 then
    h2 / d1 + 2.0 * h22 / (3.0 * (d1 + d2)) + h02 / b02
  else if CX = 3 then
    0.623 + h02 / b02
  else if CX = 4 then
    if |B12 - 1.0| ≤ 1e-4 then
      (π ^ 2 * QSX / 16.0 + π * QSX ^ 2 / 2.0 +
        4.0 * QSX ^ 3 / 3.0) / (2.0 * QSX + π / 4.0) ^ 2 +
        h02 / b02 + 2.0 * h2 / (b02 + d1)
    else
      QSX * (KRS1 + KRS2) /
        (π / (8.0 * QSX) + (1.0 + B12) / 2.0) ^ 2 +
        h02 / b02 + 2.0 * h2 / (b02 + d1)
  else
    h02 / b02

/-! ## Input parameter record (`MotorParameters`) -/

/-- The `MotorParameters` dataclass with its default values.  Python ints
participate in float arithmetic throughout the engine, so every numeric
field is a real; the two flag fields are strings. -/
structure MotorParameters where
  PN : ℝ := 15.0
  UN : ℝ := 380.0
  m : ℝ := 3
  f : ℝ := 50.0
  p : ℝ := 2
  cosfi : ℝ := 0.95
  eff : ℝ := 0.935
  Tpo : ℝ := 1.8
  Ist : ℝ := 9.0
  Tst : ℝ := 2.0
  D1 : ℝ := 260.0
  Di1 : ℝ := 170.0
  La : ℝ := 190.0
  g : ℝ := 0.65
  g12 : ℝ := 0.15
  Q1 : ℝ := 36
  Q2 : ℝ := 32
  Di2 : ℝ := 60.0
  b01 : ℝ := 3.8
  h01 : ℝ := 0.8
  b1 : ℝ := 7.7
  ALFA1 : ℝ := 30.0
  R1 : ℝ := 5.1
  h12 : ℝ := 15.2
  sks : String := "Y"
  Lv : ℝ := 1
  b02 : ℝ := 2.0
  h02 : ℝ := 0.8
  br1 : ℝ := 6.4
  br2 : ℝ := 5.5
  hr12 : ℝ := 15.0
  ALFA2 : ℝ := 30.0
  AR : ℝ := 180.0
  CX : ℝ := 1
  steel_type : ℝ := 5
  LE : ℝ := 2
  a : ℝ := 1
  Ns : ℝ := 13
  Nt1 : ℝ := 2
  d11 : ℝ := 1.20
  Nt2 : ℝ := 3
  d12 : ℝ := 1.25
  d : ℝ := 15.0
  y : ℝ := 9
  wgco : String := "Y"
  Lev : ℝ := 1
  magnet : ℝ := 1
  Br0 : ℝ := 1.15
  Hc0 : ℝ := 875.0
  hM : ℝ := 5.3
  bM : ℝ := 110.0
  LM : ℝ := 190.0
  ROUm : ℝ := 7400.0
  SIGMA0 : ℝ := 1.28
  t : ℝ := 75.0
  pfwl : ℝ := 0.0107
  psl : ℝ := 0.015
  Kq : ℝ := 0.36

/-- The default parameter record (the reference 15 kW design). -/
def P0 : MotorParameters := {}

/-- Vacuum permeability `self.MUO = 4π·1e-7`. -/
def MUO : ℝ := 4.0 * π * 1e-7

/-! ## Engine state (`MotorCalculationEngine` instance attributes)

The Python engine mutates one attribute set as the eleven stages run.  The
embedding threads a `Derived` record through the stages; each stage is a
record update writing exactly the attributes the corresponding method
assigns.  The initial record is arbitrary (attribute slots hold junk until a
stage writes them). -/

structure Derived where
  OMGs : ℝ := 0
  nN : ℝ := 0
  IN : ℝ := 0
  TN : ℝ := 0
  TAO : ℝ := 0
  N : ℝ := 0
  Kp1 : ℝ := 0
  Kd1 : ℝ := 0
  Ksk1 : ℝ := 0
  Kdp : ℝ := 0
  t1 : ℝ := 0
  D2 : ℝ := 0
  t2 : ℝ := 0
  hs1 : ℝ := 0
  bt1 : ℝ := 0
  hj1 : ℝ := 0
  ht1 : ℝ := 0
  Lj1 : ℝ := 0
  hr1 : ℝ := 0
  hr2 : ℝ := 0
  hr : ℝ := 0
  AB : ℝ := 0
  hj2 : ℝ := 0
  bt2 : ℝ := 0
  DR : ℝ := 0
  Lj2 : ℝ := 0
  Vt1 : ℝ := 0
  Vj1 : ℝ := 0
  Br : ℝ := 0
  Hc : ℝ := 0
  MUr : ℝ := 0
  Am : ℝ := 0
  Vm : ℝ := 0
  mm : ℝ := 0
  FF : ℝ := 0
  FAIM : ℝ := 0
  bm0 : ℝ := 0
  LUMDAn : ℝ := 0
  LUMDAs : ℝ := 0
  FI0 : ℝ := 0
  Bg : ℝ := 0
  Bts : ℝ := 0
  Bj1 : ℝ := 0
  Btr : ℝ := 0
  Bj2 : ℝ := 0
  Bg1 : ℝ := 0
  E0 : ℝ := 0
  Kst : ℝ := 0
  Rs : ℝ := 0
  fd : ℝ := 0
  Ls : ℝ := 0
  X1 : ℝ := 0
  R2 : ℝ := 0
  X2 : ℝ := 0
  Xad : ℝ := 0
  Xd : ℝ := 0
  Xaq : ℝ := 0
  Xq : ℝ := 0
  Kad : ℝ := 0
  Kaq : ℝ := 0
  bmN : ℝ := 0
  mCu : ℝ := 0
  mFe : ℝ := 0
  mAl : ℝ := 0
  pCu : ℝ := 0
  pFe : ℝ := 0
  pfw : ℝ := 0
  ps : ℝ := 0
  pSum : ℝ := 0
  Ist_calc : ℝ := 0
  Ist_ratio : ℝ := 0
  Tst_calc : ℝ := 0
  eta_actual : ℝ := 0
  cosfi_actual : ℝ := 0
  theta_actual : ℝ := 0
  phi_actual : ℝ := 0
  Sf_actual : ℝ := 0
  A1_actual : ℝ := 0
  J1_actual : ℝ := 0
  A1J1_actual : ℝ := 0
  bmh_actual : ℝ := 0

/-! ## Stage 1: `calculate_basic_parameters` -/

def calculate_basic_parameters (p : MotorParameters) (d : Derived) : Derived :=
  let OMGs := 2 * π * p.f / p.p
  let nN := 60 * p.f / p.p
  let UN_calc := if strUpper p.wgco = "Y" then p.UN / Real.sqrt 3 else p.UN
  let IN := p.PN * 1000 / (p.m * UN_calc * p.eff * p.cosfi)
  let TN := p.PN * 1000 / (2 * π * nN / 60)
  let TAO := π * p.Di1 / (2 * p.p)
  { d with OMGs := OMGs, nN := nN, IN := IN, TN := TN, TAO := TAO }

/-! ## Stage 2: `calculate_winding_parameters` -/

def calculate_winding_parameters (p : MotorParameters) (d : Derived) : Derived :=
  let N := p.Q1 * p.Ns / (2 * p.m * p.a)
  let QPM := p.Q1 / (2 * p.m * p.p)
  let BETA := if p.LE ∈ ([1, 2, 3] : List ℝ) then (1.0 : ℝ) else p.y / (p.m * QPM)
  let Kp1 := Real.sin (BETA * π / 2)
  let Kd1 := Real.sin (π / (2 * p.m)) / (QPM * Real.sin (π / (2 * p.m * QPM)))
  let Ksk1 :=
    if strUpper p.sks = "Y" then
      let t1 := π * p.Di1 / p.Q1
      let tsk := p.Q1 * t1 / (p.Q1 + p.p)
      let ALFAs := tsk / d.TAO * π
      2 * Real.sin (ALFAs / 2) / ALFAs
    else 1.0
  let Kdp := Kp1 * Kd1 * Ksk1
  { d with N := N, Kp1 := Kp1, Kd1 := Kd1, Ksk1 := Ksk1, Kdp := Kdp }

/-! ## Stage 3: `calculate_geometry_parameters` -/

def calculate_geometry_parameters (p : MotorParameters) (d : Derived) : Derived :=
  let t1 := π * p.Di1 / p.Q1
  let D2 := p.Di1 - 2 * p.g
  let t2 := π * D2 / p.Q2
  let hs1 := (p.b1 - p.b01) / 2 * Real.tan (p.ALFA1 * π / 180)
  let bt1 := (p.Di1 + 2 * (p.h01 + p.h12)) * π / p.Q1 - 2 * p.R1
  let hj1 := (p.D1 - p.Di1) / 2 - (p.h01 + p.h12 + 2 * p.R1 / 3)
  let ht1 := p.h12 + p.R1 / 3
  let Lj1 := π * (p.D1 - hj1) / (4 * p.p)
  let hr1 := (p.br1 - p.b02) * Real.tan (p.ALFA2 * π / 180) / 2
  let hr2 := p.hr12 - hr1
  let hr := p.h02 + p.hr12
  let AB := (p.b02 + p.br1) * hr1 / 2 + (p.br1 + p.br2) * hr2 / 2
  let hj2 := if p.Lev = 1 then (D2 - p.Di2) / 2 - hr - p.hM else p.bM
  let bt2 := (D2 - 2 * (p.h02 + p.hr12)) * π / p.Q2 - p.br2
  let DR := D2 - hr - 2
  let Lj2 := π * (p.Di2 + hj2) / (4 * p.p)
  let Vt1 := p.Q1 * p.La * 0.93 * ht1 * bt1
  let Vj1 := π * (p.D1 - hj1) * p.La * 0.93 * hj1
  { d with t1 := t1, D2 := D2, t2 := t2, hs1 := hs1, bt1 := bt1, hj1 := hj1,
           ht1 := ht1, Lj1 := Lj1, hr1 := hr1, hr2 := hr2, hr := hr, AB := AB,
           hj2 := hj2, bt2 := bt2, DR := DR, Lj2 := Lj2, Vt1 := Vt1, Vj1 := Vj1 }

/-! ## Stage 4: `calculate_magnet_parameters` -/

def calculate_magnet_parameters (p : MotorParameters) (d : Derived) : Derived :=
  let TEMB := if p.magnet = 1 then 1 - (p.t - 20) * 0.12e-2 else 1 - (p.t - 20) * 0.19e-2
  let TEMH := if p.magnet = 1 then TEMB else 1 + (p.t - 20) * 0.4e-2
  let Br := TEMB * p.Br0
  let Hc := TEMH * p.Hc0 * 1000
  let MUr := p.Br0 / (MUO * p.Hc0 * 1000)
  let Am := if p.Lev = 1 then p.bM * p.LM else 2 * p.bM * p.LM
  let Vm := 2 * p.p * p.LM * p.bM * p.hM
  let mm := p.ROUm * Vm / 1e9
  let FF := p.hM * Hc / 1000
  let FAIM := Am * Br
  { d with Br := Br, Hc := Hc, MUr := MUr, Am := Am, Vm := Vm, mm := mm,
           FF := FF, FAIM := FAIM }

/-! ## Stage 5: `calculate_no_load_magnetic_circuit` and helpers -/

/-- `calculate_gap_factor` (reads `self.t1`, `self.t2`). -/
def calculate_gap_factor (p : MotorParameters) (t1 t2 : ℝ) : ℝ :=
  let ttt := t1 * (4.4 * p.g + 0.75 * p.b01)
  let Kg1 := ttt / (ttt - p.b01 * p.b01)
  let fff := t2 * (4.4 * p.g + 0.75 * p.b02)
  let Kg2 := fff / (fff - p.b02 * p.b02)
  Kg1 * Kg2

/-- The quantities one iteration of the stage-5 loop reads (parameters and
fields written by stages 1-4). -/
structure Mag5 where
  SIGMA0 : ℝ
  hM : ℝ
  g : ℝ
  g12 : ℝ
  La : ℝ
  Lev : ℝ
  FAIM : ℝ
  TAO : ℝ
  t1 : ℝ
  bt1 : ℝ
  hj1 : ℝ
  t2 : ℝ
  bt2 : ℝ
  hj2 : ℝ
  hr : ℝ
  ht1 : ℝ
  Lj1 : ℝ
  Lj2 : ℝ
  MUr : ℝ
  Am : ℝ
  Kg : ℝ

def mkMag5 (p : MotorParameters) (d : Derived) : Mag5 :=
  { SIGMA0 := p.SIGMA0, hM := p.hM, g := p.g, g12 := p.g12, La := p.La,
    Lev := p.Lev, FAIM := d.FAIM, TAO := d.TAO, t1 := d.t1, bt1 := d.bt1,
    hj1 := d.hj1, t2 := d.t2, bt2 := d.bt2, hj2 := d.hj2, hr := d.hr,
    ht1 := d.ht1, Lj1 := d.Lj1, Lj2 := d.Lj2, MUr := d.MUr, Am := d.Am,
    Kg := calculate_gap_factor p d.t1 d.t2 }

/-- All values one round of the stage-5 loop computes. -/
structure StepOut where
  FI01 : ℝ
  Bg : ℝ
  Bts : ℝ
  Bj1 : ℝ
  Btr : ℝ
  Bj2 : ℝ
  Hts : ℝ
  Hjs : ℝ
  Htr : ℝ
  Hjr : ℝ
  Ft1 : ℝ
  Fj1 : ℝ
  Ft2 : ℝ
  Fj2 : ℝ
  Fg : ℝ
  SUMF : ℝ
  NUMDAm : ℝ
  LUMDAm : ℝ
  LUMDAn : ℝ
  bm0 : ℝ

/-- One round of the stage-5 fixed-point loop (lines 501-552 of the source),
with the B-H table of the configured grade already resolved to `tbl`. -/
def noLoadStep (m : Mag5) (tbl : List (ℝ × ℝ)) (bm01 : ℝ) : StepOut :=
  let FI01 := bm01 * m.FAIM / m.SIGMA0 * 1e-6
  let RFAi : ℝ := 0.64
  let Bg := FI01 / (RFAi * m.TAO * (m.La + 2 * m.g)) * 1e6
  let Bts := Bg * m.t1 * (m.La + 2 * m.g) / (m.La * 0.93 * m.bt1)
  let Bj1 := FI01 / (2 * m.La * 0.93 * m.hj1) * 1e6
  let Btr := Bg * m.t2 * (m.La + 2 * m.g) / (m.La * 0.93 * m.bt2)
  let Bj2 := FI01 / (2 * m.La * 0.93 * m.hj2) * 1e6
  let Hts := linear_interpolation tbl Bts
  let Hjs := linear_interpolation tbl Bj1
  let Htr := linear_interpolation tbl Btr
  let Hjr := linear_interpolation tbl Bj2
  let Ft1 := Hts * m.ht1 / 10
  let Fj1 := Hjs * m.Lj1 / 10
  let Ft2 := Htr * m.hr / 10
  let Fj2 := Hjr * m.Lj2 / 10
  let Fg := Bg / MUO * (m.g12 + m.g * m.Kg) * 1e-3
  let SUMF := 2 * (Fg + Ft1 + Fj1 + Ft2 + Fj2)
  let NUMDAm := FI01 / SUMF
  let LUMDAm :=
    if m.Lev = 1 then NUMDAm * 2 * m.hM * 1e-3 / (m.MUr * MUO * m.Am * 1e-6)
    else NUMDAm * m.hM * 1e-3 / (m.MUr * MUO * m.Am * 1e-6)
  let LUMDAn := m.SIGMA0 * LUMDAm
  let bm0 := LUMDAn / (LUMDAn + 1)
  { FI01 := FI01, Bg := Bg, Bts := Bts, Bj1 := Bj1, Btr := Btr, Bj2 := Bj2,
    Hts := Hts, Hjs := Hjs, Htr := Htr, Hjr := Hjr, Ft1 := Ft1, Fj1 := Fj1,
    Ft2 := Ft2, Fj2 := Fj2, Fg := Fg, SUMF := SUMF, NUMDAm := NUMDAm,
    LUMDAm := LUMDAm, LUMDAn := LUMDAn, bm0 := bm0 }

/-- The damped update applied when a round has not converged:
`bm01 = (bm01 + bm0) / 2`. -/
def dampStep (m : Mag5) (tbl : List (ℝ × ℝ)) (bm01 : ℝ) : ℝ :=
  (bm01 + (noLoadStep m tbl bm01).bm0) / 2

/-- The `for iteration in range(30)` loop.  `fuel` is the number of rounds
still allowed after the current one, so the top-level call uses `fuel = 29`.
A round breaks out when the relative change of `bm` is below `1e-4`;
otherwise the iterate is replaced by the damped update.  When the rounds are
exhausted the last computed values are kept (no error). -/
def noLoadRun (m : Mag5) (tbl : List (ℝ × ℝ)) : ℕ → ℝ → StepOut
  | 0, bm01 => noLoadStep m tbl bm01
  | fuel + 1, bm01 =>
      let r := noLoadStep m tbl bm01
      if |(r.bm0 - bm01) / r.bm0| < 0.0001 then r
      else noLoadRun m tbl fuel (dampStep m tbl bm01)

/-- The initial operating-point estimate `bm01 = 0.95·σ0·hM/(σ0·hM + g)`. -/
def initialBm (p : MotorParameters) : ℝ :=
  0.95 * p.SIGMA0 * p.hM / (p.SIGMA0 * p.hM + p.g)

/-- Stage 5.  `none` models the `KeyError` raised by `H_data[steel_type]`
for an undefined grade; this is the only exception source in the stage. -/
def calculate_no_load_magnetic_circuit (p : MotorParameters) (d : Derived) :
    Option Derived :=
  match H_data p.steel_type with
  | none => none
  | some h =>
    let m := mkMag5 p d
    let tbl := B_data.zip h
    let r := noLoadRun m tbl 29 (initialBm p)
    let RFAi : ℝ := 0.64
    let FI0 := r.bm0 * d.FAIM / p.SIGMA0 * 1e-6
    let Kf := 4 / π * Real.sin (π * RFAi / 2)
    let Bg1 := Kf * r.FI01 / (RFAi * d.TAO * (p.La + 2 * p.g)) * 1e6
    let KFI := 8 / (π * π) / RFAi * Real.sin (RFAi * π / 2)
    let E0 := 4.44 * p.f * d.N * d.Kdp * FI0 * KFI
    let Fgg := r.Bg / MUO * p.g * calculate_gap_factor p d.t1 d.t2 * 1e-3
    let Kst := (Fgg + r.Ft1 + r.Ft2) / Fgg
    some { d with bm0 := r.bm0, LUMDAn := r.LUMDAn,
                  LUMDAs := (p.SIGMA0 - 1) * r.LUMDAm, FI0 := FI0,
                  Bg := r.Bg, Bts := r.Bts, Bj1 := r.Bj1, Btr := r.Btr,
                  Bj2 := r.Bj2, Bg1 := Bg1, E0 := E0, Kst := Kst }

/-! ## Stage 6: `calculate_impedances` -/

def calculate_impedances (p : MotorParameters) (d : Derived) : Derived :=
  let s11 := p.Nt1 * π * p.d11 ^ 2 / 4
  let s12 := p.Nt2 * π * p.d12 ^ 2 / 4
  let ROUCu := 0.0175 * (1 + 0.004 * (p.t - 15))
  let sss :=
    if p.LE ∈ ([1, 2, 3] : List ℝ) then
      if p.p = 1 then (0.58 : ℝ)
      else if p.p ∈ ([2, 3] : List ℝ) then 0.6
      else 0.625
    else 1 / Real.sqrt (1 - ((p.b1 + 2 * p.R1) / (p.b1 + 2 * p.R1 + 2 * d.bt1)) ^ 2) / 2
  let TAOy :=
    if p.LE ∈ ([1, 2] : List ℝ) then
      π / 2 / p.p * 0.85 * (p.Di1 + 2 * (p.h01 + d.hs1) + p.h12 - d.hs1 + p.R1)
    else
      π / 2 / p.p * (p.Di1 + 2 * (p.h01 + d.hs1) + p.h12 - d.hs1 + p.R1)
  let LEIP := sss * TAOy
  let Lc := 2 * (p.La + 2 * (p.d + LEIP))
  let fd := LEIP * (p.b1 + 2 * p.R1) / (p.b1 + 2 * p.R1 + 2 * d.bt1)
  let Ls := 2 * (p.d + LEIP)
  let Rs := ROUCu * Lc * d.N / (p.a * (s11 + s12) * 1000)
  let Cx := (4 * π) ^ 2 * 1e-10 * p.f * (p.La + 2 * p.g) * (d.N * d.Kdp) ^ 2 / p.p
  let AU1 := p.h01 / p.b01 + 2 * d.hs1 / (p.b01 + p.b1)
  let AL1 := 2 * p.h12 / (p.b01 + p.b1)
  let QPM := p.Q1 / (2 * p.m * p.p)
  let BETA_calc := if p.LE ∈ ([1, 2, 3] : List ℝ) then (1.0 : ℝ) else p.y / (p.m * QPM)
  let BETA1 := if BETA_calc > 1 then 2 - BETA_calc else BETA_calc
  let KU1 :=
    if BETA1 ≥ 2 / 3 then (3 * BETA1 + 1) / 4
    else if BETA1 > 1 / 3 then (6 * BETA1 - 1) / 4
    else 0.75 * BETA1
  let KL1 :=
    if BETA1 ≥ 2 / 3 then (9 * BETA1 + 7) / 16
    else if BETA1 > 1 / 3 then (18 * BETA1 + 1) / 16
    else (9 * BETA1 + 4) / 16
  let As1 := KU1 * AU1 + KL1 * AL1
  let Xs1 := p.La * p.m * 2 * p.p * As1 / ((p.La + 2 * p.g) * d.Kdp ^ 2 * p.Q1) * Cx
  let SUMR := π ^ 2 * (2 * p.p / p.Q1) ^ 2 / 12
  let Xd1 := p.m * d.TAO * SUMR /
      (π ^ 2 * calculate_gap_factor p d.t1 d.t2 * p.g * d.Kst) * Cx
  let XE1 :=
    if p.LE = 0 then 1.2 * (p.d + 0.5 * fd) / (p.La + 2 * p.g) * Cx
    else if p.LE = 1 then 0.67 * (Ls - 0.64 * TAOy) / ((p.La + 2 * p.g) * d.Kdp ^ 2) * Cx
    else if p.LE = 2 then 0.47 * (Ls - 0.64 * TAOy) / ((p.La + 2 * p.g) * d.Kdp ^ 2) * Cx
    else 0.2 * Ls / ((p.La + 2 * p.g) * d.Kdp ^ 2) * Cx
  let Xsk1 :=
    if strUpper p.sks = "Y" then
      let tsk := p.Q1 * d.t1 / (p.Q1 + p.p)
      0.5 * (tsk / d.t1) ^ 2 * Xd1
    else 0.0
  let X1 := Xs1 + Xd1 + XE1 + Xsk1
  let kc := p.m * (2 * d.N * d.Kdp) ^ 2 * 1e-4
  let ROUA1 := 0.035 * (1 + 0.004 * (p.t - 15))
  let RB := kc * (1.04 * p.La * ROUA1 * 10) / (d.AB * p.Q2)
  let RR := kc * (d.DR * ROUA1 * 10) / (2 * π * p.p ^ 2 * p.AR)
  let R2 := RB + RR
  let LUMDAS := calculate_slot_leakage p.CX p.h02 p.b02 p.hr12 p.br1 p.br2
      (p.hr12 / 2) 1.0 (p.br2 / p.br1) 0.5 0.3 0.2
  let Xs2 := p.La * p.m * 2 * p.p * LUMDAS * Cx / ((p.La + 2 * p.g) * p.Q2)
  let SUMR2 := π ^ 2 * (2 * p.p / p.Q2) ^ 2 / 12
  let Xd2 := p.m * d.TAO * SUMR2 /
      (π ^ 2 * p.g * calculate_gap_factor p d.t1 d.t2 * d.Kst) * Cx
  let XE2 := 0.757 / (p.La + 2 * p.g) * ((p.La - p.La) / 1.13 + d.DR / (2 * p.p)) * Cx
  let X2 := Xs2 + Xd2 + XE2
  { d with Rs := Rs, fd := fd, Ls := Ls, X1 := X1, R2 := R2, X2 := X2 }

/-! ## Stage 7: `calculate_performance` -/

def calculate_performance (p : MotorParameters) (d : Derived) : Derived :=
  let Fa := 0.45 * p.m * d.N * d.Kdp * 0.5 * d.IN * 1.0 / p.p
  let fad := if p.Lev = 1 then Fa / d.FF else 2 * Fa / d.FF
  let f1 := fad / p.SIGMA0
  let bmN := d.LUMDAn * (1 - f1) / (d.LUMDAn + 1)
  let FIN := (bmN - (1 - bmN) * d.LUMDAs) * d.FAIM * 1e-6
  let KFI := 8 / (π * π) / 0.64 * Real.sin (0.64 * π / 2)
  let Ed := 4.44 * p.f * d.N * d.Kdp * FIN * KFI
  let Xad := |(d.E0 - Ed) / (0.5 * d.IN)|
  let Xd := Xad + d.X1
  let Xaq := Xad * p.Kq
  let Xq := Xaq + d.X1
  let Kf := 4 / π * Real.sin (π * 0.64 / 2)
  let Kad := 1 / Kf
  let Kaq := p.Kq / Kf
  { d with Xad := Xad, Xd := Xd, Xaq := Xaq, Xq := Xq, Kad := Kad,
           Kaq := Kaq, bmN := bmN }

/-! ## Stage 8: `calculate_material_weights` -/

def calculate_material_weights (p : MotorParameters) (d : Derived) : Derived :=
  let s11 := p.Nt1 * π * p.d11 ^ 2 / 4
  let s12 := p.Nt2 * π * p.d12 ^ 2 / 4
  let Lc := 2 * (p.La + 2 * (p.d + d.Ls / 2))
  let mCu := 1.05 * 8.9 * p.Q1 * p.Ns * Lc / 2 * (s11 + s12) * 1e-6
  let mFe := 7.8 * (p.La + 2 * p.g) * (p.D1 + 5) ^ 2 * 1e-6
  let mAl := 2.7 * (p.Q2 * d.AB * p.La + 2 * p.AR * π * d.DR) * 1e-6
  { d with mCu := mCu, mFe := mFe, mAl := mAl }

/-! ## Stage 9: `calculate_losses` (the second steel-table lookup site) -/

def calculate_losses (p : MotorParameters) (d : Derived) : Option Derived :=
  match P_data p.steel_type with
  | none => none
  | some pd =>
    let tbl := B_data.zip pd
    let pCu := p.m * d.IN ^ 2 * d.Rs
    let pt1 := linear_interpolation tbl d.Bts
    let pj1 := linear_interpolation tbl d.Bj1
    let pFe := 2.5 * d.Vt1 * pt1 / 1e6 + 2 * d.Vj1 * pj1 / 1e6
    let pfw := p.pfwl * p.PN * 1000
    let ps := (d.IN / d.IN) ^ 2 * p.psl * p.PN * 1000
    let pSum := pCu + pFe + pfw + ps
    some { d with pCu := pCu, pFe := pFe, pfw := pfw, ps := ps, pSum := pSum }

/-! ## Stage 10: `calculate_starting_characteristics` -/

def calculate_starting_characteristics (p : MotorParameters) (d : Derived) : Derived :=
  let X1st := d.X1 * 0.8
  let R2st := d.R2 * 1.2
  let X2st := d.X2 * 0.8
  let Xst := X1st + X2st
  let Rst := d.Rs + R2st
  let Zst := Real.sqrt (Rst ^ 2 + Xst ^ 2)
  let UN_calc := if strUpper p.wgco = "Y" then p.UN / Real.sqrt 3 else p.UN
  let Ist_calc := UN_calc / Zst
  let Ist_ratio := Ist_calc / d.IN
  let Tst_calc := p.m * p.p * Ist_calc ^ 2 * R2st / (2 * π * p.f) / d.TN
  { d with Ist_calc := Ist_calc, Ist_ratio := Ist_ratio, Tst_calc := Tst_calc }

/-! ## Stage 11: `calculate_actual_performance` -/

def calculate_actual_performance (p : MotorParameters) (d : Derived) : Derived :=
  let P_out := p.PN * 1000
  let P_in := P_out + d.pSum
  let eta_actual := P_out / P_in * 100
  let phi_rad := Real.arctan (d.X1 / d.Rs)
  let cosfi_actual := Real.cos phi_rad
  let theta_actual := Real.arcsin (P_out / (p.m * d.E0 * d.IN / Real.sqrt 3)) * 180 / π
  let phi_actual := Real.arccos cosfi_actual * 180 / π
  let s_total := p.Ns * (p.Nt1 * π * p.d11 ^ 2 / 4 + p.Nt2 * π * p.d12 ^ 2 / 4)
  let slot_area := (p.b01 + p.b1) * p.h12 / 2 + p.b01 * p.h01
  let Sf_actual := s_total / slot_area * 100
  let A1_actual := p.m * d.N * d.IN / (π * p.Di1)
  let J1_actual := d.IN / s_total
  let A1J1_actual := A1_actual * J1_actual
  let bmh_actual := d.bmN * 0.382
  { d with eta_actual := eta_actual, cosfi_actual := cosfi_actual,
           theta_actual := theta_actual, phi_actual := phi_actual,
           Sf_actual := Sf_actual, A1_actual := A1_actual,
           J1_actual := J1_actual, A1J1_actual := A1J1_actual,
           bmh_actual := bmh_actual }

/-! ## `calculate_all`: the eleven-stage pipeline with its `try/except` -/

/-- Outcome of one `calculate_all()` call.  `trace` records the stage
banners printed before each stage method runs; `success` and `message` model
the returned pair; `results` models `self.results`, which `__init__` sets to
the empty dict and only `save_complete_results` (run after stage 11)
populates - here with the final derived state it is built from. -/
structure CalcOutcome where
  trace : List ℕ
  success : Bool
  message : String
  results : Option Derived

/-- `calculate_all()`.  Each stage runs in order; the two dictionary-lookup
sites (stages 5 and 9) are the modelled exception sources, and an exception
aborts the remaining stages, leaving `results` empty. -/
def calculate_all (p : MotorParameters) (d0 : Derived) : CalcOutcome :=
  let d1 := calculate_basic_parameters p d0
  let d2 := calculate_winding_parameters p d1
  let d3 := calculate_geometry_parameters p d2
  let d4 := calculate_magnet_parameters p d3
  match calculate_no_load_magnetic_circuit p d4 with
  | none => { trace := [1, 2, 3, 4, 5], success := false, message := "计算错误", results := none }
  | some d5 =>
    let d6 := calculate_impedances p d5
    let d7 := calculate_performance p d6
    let d8 := calculate_material_weights p d7
    match calculate_losses p d8 with
    | none => { trace := [1, 2, 3, 4, 5, 6, 7, 8, 9], success := false, message := "计算错误", results := none }
    | some d9 =>
      let d10 := calculate_starting_characteristics p d9
      let d11 := calculate_actual_performance p d10
      { trace := [1, 2, 3, 4, 5, 6, 7, 8, 9, 10, 11], success := true,
        message := "计算完成", results := some d11 }

/-! ## Theorems -/

/-- Packaged boundary/monotonicity facts for one zipped steel table. -/
lemma interp_table_spec (ys : List ℝ) (y0 yl : ℝ)
    (hzip : B_data.zip ys = ((0.40 : ℝ), y0) :: (B_data.tail.zip ys.tail))
    (hlastp : (B_data.tail.zip ys.tail).getLastD ((0.40 : ℝ), y0) = (2.20, yl))
    (hs : SortedPts (B_data.zip ys)) (hm : MonoPts (B_data.zip ys))
    (hhead : ys.headD 0 = y0) (hl : ys.getLastD 0 = yl) :
    (∀ B : ℝ, B ≤ 0.40 →
      linear_interpolation (B_data.zip ys) B = ys.headD 0) ∧
    (∀ B : ℝ, 2.20 ≤ B →
      linear_interpolation (B_data.zip ys) B = ys.getLastD 0) ∧
    (∀ B1 B2 : ℝ, B1 ≤ B2 →
      linear_interpolation (B_data.zip ys) B1 ≤ linear_interpolation (B_data.zip ys) B2) := by
  rw [hzip] at hs hm ⊢
  refine ⟨?_, ?_, ?_⟩
  · intro B hB
    rw [linear_interpolation_clamp_lo _ _ _ _ hB, hhead]
  · intro B hB
    rw [linear_interpolation_clamp_hi _ _ _ _ hs (by rw [hlastp]; exact hB), hlastp, hl]
  · intro B1 B2 h12
    exact linear_interpolation_mono _ _ _ _ _ hs hm h12

/-- C5: for every valid steel grade, `get_BH_curve` clamps to the first
tabulated H value at or below the first sample 0.40 T, clamps to the last
tabulated H value at or above the last sample 2.20 T, and is monotonically
non-decreasing in B in between; the same holds for `get_iron_loss` over the
loss tables. -/
theorem C5_interpolation_boundary (g : ℝ)
    (hg : g = 1 ∨ g = 2 ∨ g = 3 ∨ g = 4 ∨ g = 5) :
    (∀ hd, H_data g = some hd →
      (∀ B : ℝ, B ≤ 0.40 → get_BH_curve B g = some (hd.headD 0)) ∧
      (∀ B : ℝ, 2.20 ≤ B → get_BH_curve B g = some (hd.getLastD 0)) ∧
      (∀ B1 B2 y1 y2 : ℝ, B1 ≤ B2 → get_BH_curve B1 g = some y1 →
        get_BH_curve B2 g = some y2 → y1 ≤ y2)) ∧
    (∀ pd, P_data g = some pd →
      (∀ B : ℝ, B ≤ 0.40 → get_iron_loss B g = some (pd.headD 0)) ∧
      (∀ B : ℝ, 2.20 ≤ B → get_iron_loss B g = some (pd.getLastD 0)) ∧
      (∀ B1 B2 y1 y2 : ℝ, B1 ≤ B2 → get_iron_loss B1 g = some y1 →
        get_iron_loss B2 g = some y2 → y1 ≤ y2)) := by
  have main : ∀ ys : List ℝ,
      ((∀ B : ℝ, B ≤ 0.40 →
        linear_interpolation (B_data.zip ys) B = ys.headD 0) ∧
      (∀ B : ℝ, 2.20 ≤ B →
        linear_interpolation (B_data.zip ys) B = ys.getLastD 0) ∧
      (∀ B1 B2 : ℝ, B1 ≤ B2 →
        linear_interpolation (B_data.zip ys) B1 ≤ linear_interpolation (B_data.zip ys) B2)) →
      (∀ B : ℝ, B ≤ 0.40 →
        (some (linear_interpolation (B_data.zip ys) B) : Option ℝ) = some (ys.headD 0)) ∧
      (∀ B : ℝ, 2.20 ≤ B →
        (some (linear_interpolation (B_data.zip ys) B) : Option ℝ) = some (ys.getLastD 0)) ∧
      (∀ B1 B2 y1 y2 : ℝ, B1 ≤ B2 →
        (some (linear_interpolation (B_data.zip ys) B1) : Option ℝ) = some y1 →
        (some (linear_interpolation (B_data.zip ys) B2) : Option ℝ) = some y2 → y1 ≤ y2) := by
    intro ys h
    refine ⟨fun B hB => by rw [h.1 B hB], fun B hB => by rw [h.2.1 B hB], ?_⟩
    intro B1 B2 y1 y2 h12 e1 e2
    injection e1 with e1
    injection e2 with e2
    rw [← e1, ← e2]
    exact h.2.2 B1 B2 h12
  rcases hg with hg | hg | hg | hg | hg <;> subst hg
  · refine ⟨fun hd heq => ?_, fun pd heq => ?_⟩
    · rw [show H_data 1 = some H_data_1 from by norm_num [H_data]] at heq
      injection heq with heq; subst heq
      simpa [get_BH_curve, show H_data 1 = some H_data_1 from by norm_num [H_data]]
        using main H_data_1 (interp_table_spec H_data_1 75 16530 zipH1 lastH1 sortedH1 monoH1 rfl rfl)
    · rw [show P_data 1 = some P_data_1 from by norm_num [P_data]] at heq
      injection heq with heq; subst heq
      simpa [get_iron_loss, show P_data 1 = some P_data_1 from by norm_num [P_data]]
        using main P_data_1 (interp_table_spec P_data_1 0.4 226.8 zipP1 lastP1 sortedP1 monoP1 rfl rfl)
  · refine ⟨fun hd heq => ?_, fun pd heq => ?_⟩
    · rw [show H_data 2 = some H_data_2 from by norm_num [H_data]] at heq
      injection heq with heq; subst heq
      simpa [get_BH_curve, show H_data 2 = some H_data_2 from by norm_num [H_data]]
        using main H_data_2 (interp_table_spec H_data_2 70 13400 zipH2 lastH2 sortedH2 monoH2 rfl rfl)
    · rw [show P_data 2 = some P_data_2 from by norm_num [P_data]] at heq
      injection heq with heq; subst heq
      simpa [get_iron_loss, show P_data 2 = some P_data_2 from by norm_num [P_data]]
        using main P_data_2 (interp_table_spec P_data_2 0.3 202.8 zipP2 lastP2 sortedP2 monoP2 rfl rfl)
  · refine ⟨fun hd heq => ?_, fun pd heq => ?_⟩
    · rw [show H_data 3 = some H_data_3 from by norm_num [H_data]] at heq
      injection heq with heq; subst heq
      simpa [get_BH_curve, show H_data 3 = some H_data_3 from by norm_num [H_data]]
        using main H_data_3 (interp_table_spec H_data_3 78 13700 zipH3 lastH3 sortedH3 monoH3 rfl rfl)
    · rw [show P_data 3 = some P_data_3 from by norm_num [P_data]] at heq
      injection heq with heq; subst heq
      simpa [get_iron_loss, show P_data 3 = some P_data_3 from by norm_num [P_data]]
        using main P_data_3 (interp_table_spec P_data_3 0.45 226.2 zipP3 lastP3 sortedP3 monoP3 rfl rfl)
  · refine ⟨fun hd heq => ?_, fun pd heq => ?_⟩
    · rw [show H_data 4 = some H_data_4 from by norm_num [H_data]] at heq
      injection heq with heq; subst heq
      simpa [get_BH_curve, show H_data 4 = some H_data_4 from by norm_num [H_data]]
        using main H_data_4 (interp_table_spec H_data_4 85 14530 zipH4 lastH4 sortedH4 monoH4 rfl rfl)
    · rw [show P_data 4 = some P_data_4 from by norm_num [P_data]] at heq
      injection heq with heq; subst heq
      simpa [get_iron_loss, show P_data 4 = some P_data_4 from by norm_num [P_data]]
        using main P_data_4 (interp_table_spec P_data_4 0.5 230.0 zipP4 lastP4 sortedP4 monoP4 rfl rfl)
  · refine ⟨fun hd heq => ?_, fun pd heq => ?_⟩
    · rw [show H_data 5 = some H_data_5 from by norm_num [H_data]] at heq
      injection heq with heq; subst heq
      simpa [get_BH_curve, show H_data 5 = some H_data_5 from by norm_num [H_data]]
        using main H_data_5 (interp_table_spec H_data_5 80 8100 zipH5 lastH5 sortedH5 monoH5 rfl rfl)
    · rw [show P_data 5 = some P_data_5 from by norm_num [P_data]] at heq
      injection heq with heq; subst heq
      simpa [get_iron_loss, show P_data 5 = some P_data_5 from by norm_num [P_data]]
        using main P_data_5 (interp_table_spec P_data_5 0.5 168.5 zipP5 lastP5 sortedP5 monoP5 rfl rfl)

/-- Witness for C5 at grade 5: clamp below the grid returns the first H
sample, clamp above the grid returns the last loss sample, and the
monotonicity clause applied to two clamped inputs. -/
theorem C5_interpolation_boundary_witness :
    get_BH_curve 0.3 5 = some (H_data_5.headD 0) ∧
    get_iron_loss 2.5 5 = some (P_data_5.getLastD 0) ∧
    (H_data_5.headD 0 : ℝ) ≤ H_data_5.headD 0 := by
  have h := C5_interpolation_boundary 5 (by norm_num)
  have hH5 : H_data (5 : ℝ) = some H_data_5 := by norm_num [H_data]
  have hP5 : P_data (5 : ℝ) = some P_data_5 := by norm_num [P_data]
  have h1 := (h.1 H_data_5 hH5).1 0.3 (by norm_num)
  have h2 := (h.2 P_data_5 hP5).2.1 2.5 (by norm_num)
  have h3 := (h.1 H_data_5 hH5).2.2 0.2 0.3 (H_data_5.headD 0) (H_data_5.headD 0)
    (by norm_num) ((h.1 H_data_5 hH5).1 0.2 (by norm_num)) h1
  exact ⟨h1, h2, h3⟩

/-- The default-zero engine state (fresh engine attributes). -/
def d0 : Derived := {}

/-- `calculate_slot_leakage` at the fixed rotor-slot geometry the engine
passes in stage 6 for the default design (`h02 = 0.8`, `b02 = 2.0`,
`h2 = hr12 = 15`, `d1 = br1 = 6.4`, `d2 = br2 = 5.5`, `h22 = hr12/2 = 7.5`,
`QSX = 1`, `B12 = br2/br1`, `KRS = 0.5/0.3/0.2`), as a function of the
profile tag. -/
def slotGeomValue (cx : ℝ) : ℝ :=
  calculate_slot_leakage cx 0.8 2.0 15.0 6.4 5.5 7.5 1.0 (5.5 / 6.4) 0.5 0.3 0.2

lemma slotGeomValue_one :
    slotGeomValue 1 =
      1.0 * (0.5 + 0.3 + 0.2) /
        (π * (1.0 + (5.5 / 6.4) ^ 2) / (8.0 * 1.0) + (1.0 + 5.5 / 6.4) / 2.0) ^ 2 +
        0.8 / 2.0 := by
  rw [slotGeomValue, calculate_slot_leakage, if_pos rfl, if_neg (by rw [abs_le]; norm_num)]

lemma slotGeomValue_two : slotGeomValue 2 = 15.0 / 6.4 + 2.0 * 7.5 / (3.0 * (6.4 + 5.5)) + 0.8 / 2.0 := by
  rw [slotGeomValue, calculate_slot_leakage, if_neg (by norm_num), if_pos rfl]

lemma slotGeomValue_three : slotGeomValue 3 = 0.623 + 0.8 / 2.0 := by
  rw [slotGeomValue, calculate_slot_leakage, if_neg (by norm_num), if_neg (by norm_num),
    if_pos rfl]

lemma slotGeomValue_four :
    slotGeomValue 4 =
      1.0 * (0.5 + 0.3) / (π / (8.0 * 1.0) + (1.0 + 5.5 / 6.4) / 2.0) ^ 2 +
        0.8 / 2.0 + 2.0 * 15.0 / (2.0 + 6.4) := by
  rw [slotGeomValue, calculate_slot_leakage, if_neg (by norm_num), if_neg (by norm_num),
    if_neg (by norm_num), if_pos rfl, if_neg (by rw [abs_le]; norm_num)]

lemma slotGeomValue_one_bounds : 0.78 < slotGeomValue 1 ∧ slotGeomValue 1 < 0.79 := by
  rw [slotGeomValue_one]
  have hπl := Real.pi_gt_d6
  have hπu := Real.pi_lt_d6
  have htl : 1.61 < π * (1.0 + (5.5 / 6.4) ^ 2) / (8.0 * 1.0) + (1.0 + 5.5 / 6.4) / 2.0 := by
    nlinarith
  have hth : π * (1.0 + (5.5 / 6.4) ^ 2) / (8.0 * 1.0) + (1.0 + 5.5 / 6.4) / 2.0 < 1.62 := by
    nlinarith
  have hpos : (0 : ℝ) <
      (π * (1.0 + (5.5 / 6.4) ^ 2) / (8.0 * 1.0) + (1.0 + 5.5 / 6.4) / 2.0) ^ 2 := by
    positivity
  constructor
  · have h : 0.38 < 1.0 * (0.5 + 0.3 + 0.2) /
        (π * (1.0 + (5.5 / 6.4) ^ 2) / (8.0 * 1.0) + (1.0 + 5.5 / 6.4) / 2.0) ^ 2 := by
      rw [lt_div_iff hpos]; nlinarith
    linarith
  · have h : 1.0 * (0.5 + 0.3 + 0.2) /
        (π * (1.0 + (5.5 / 6.4) ^ 2) / (8.0 * 1.0) + (1.0 + 5.5 / 6.4) / 2.0) ^ 2 < 0.39 := by
      rw [div_lt_iff hpos]; nlinarith
    linarith

lemma slotGeomValue_four_bounds : 4.42 < slotGeomValue 4 ∧ slotGeomValue 4 < 4.44 := by
  rw [slotGeomValue_four]
  have hπl := Real.pi_gt_d6
  have hπu := Real.pi_lt_d6
  have htl : 1.32 < π / (8.0 * 1.0) + (1.0 + 5.5 / 6.4) / 2.0 := by nlinarith
  have hth : π / (8.0 * 1.0) + (1.0 + 5.5 / 6.4) / 2.0 < 1.33 := by nlinarith
  have hpos : (0 : ℝ) < (π / (8.0 * 1.0) + (1.0 + 5.5 / 6.4) / 2.0) ^ 2 := by positivity
  constructor
  · have h : 0.45 < 1.0 * (0.5 + 0.3) / (π / (8.0 * 1.0) + (1.0 + 5.5 / 6.4) / 2.0) ^ 2 := by
      rw [lt_div_iff hpos]; nlinarith
    nlinarith
  · have h : 1.0 * (0.5 + 0.3) / (π / (8.0 * 1.0) + (1.0 + 5.5 / 6.4) / 2.0) ^ 2 < 0.46 := by
      rw [div_lt_iff hpos]; nlinarith
    nlinarith

/-- C4: on the fixed stage-6 slot geometry, the four defined profile tags
produce four pairwise-distinct profile-specific permeances; every tag
outside 1-4 yields exactly `h02/b02`; and none of the four defined tags
yields the `h02/b02` fallback value. -/
theorem C4_slot_profile_dispatch :
    (slotGeomValue 1 ≠ slotGeomValue 2 ∧ slotGeomValue 1 ≠ slotGeomValue 3 ∧
     slotGeomValue 1 ≠ slotGeomValue 4 ∧ slotGeomValue 2 ≠ slotGeomValue 3 ∧
     slotGeomValue 2 ≠ slotGeomValue 4 ∧ slotGeomValue 3 ≠ slotGeomValue 4) ∧
    (∀ cx : ℝ, cx ≠ 1 → cx ≠ 2 → cx ≠ 3 → cx ≠ 4 → slotGeomValue cx = 0.8 / 2.0) ∧
    (∀ cx : ℝ, cx = 1 ∨ cx = 2 ∨ cx = 3 ∨ cx = 4 → slotGeomValue cx ≠ 0.8 / 2.0) := by
  have h1 := slotGeomValue_one_bounds
  have h4 := slotGeomValue_four_bounds
  have h2 : slotGeomValue 2 = 15.0 / 6.4 + 2.0 * 7.5 / (3.0 * (6.4 + 5.5)) + 0.8 / 2.0 :=
    slotGeomValue_two
  have h3 : slotGeomValue 3 = 0.623 + 0.8 / 2.0 := slotGeomValue_three
  have h2b : 3.16 < slotGeomValue 2 ∧ slotGeomValue 2 < 3.17 := by rw [h2]; norm_num
  have h3b : slotGeomValue 3 = 1.023 := by rw [h3]; norm_num
  refine ⟨⟨?_, ?_, ?_, ?_, ?_, ?_⟩, ?_, ?_⟩
  · intro h; rw [h] at h1; linarith [h2b.1]
  · intro h; rw [h, h3b] at h1; linarith [h1.2]
  · intro h; rw [h] at h1; linarith [h4.1]
  · intro h; rw [h, h3b] at h2b; linarith [h2b.1]
  · intro h; rw [h] at h2b; linarith [h4.1]
  · intro h; rw [h3b] at h; linarith [h ▸ h4.1]
  · intro cx hc1 hc2 hc3 hc4
    rw [slotGeomValue, calculate_slot_leakage, if_neg hc1, if_neg hc2, if_neg hc3, if_neg hc4]
  · intro cx hc
    rcases hc with hc | hc | hc | hc <;> subst hc <;> intro h
    · rw [h] at h1; linarith [h1.1]
    · rw [h] at h2b; linarith [h2b.1]
    · rw [h3b] at h; norm_num at h
    · rw [h] at h4; linarith [h4.1]

/-- Witness for C4: the out-of-range tag 7 falls back to `h02/b02`, and the
defined tag 3 does not. -/
theorem C4_slot_profile_dispatch_witness :
    slotGeomValue 7 = 0.8 / 2.0 ∧ slotGeomValue 3 ≠ 0.8 / 2.0 := by
  refine ⟨C4_slot_profile_dispatch.2.1 7 (by norm_num) (by norm_num) (by norm_num) (by norm_num),
    C4_slot_profile_dispatch.2.2 3 (by norm_num)⟩

/-- C6: holding rated power, phase count, power factor and efficiency fixed,
the rated current computed with a delta connection (`wgco` not `'Y'`) at
line voltage `UN` equals the rated current computed with a star connection
at line voltage `UN·√3`. -/
theorem C6_star_delta_invariance (p : MotorParameters) (d1 d2 : Derived)
    (hw : strUpper p.wgco ≠ "Y") :
    (calculate_basic_parameters p d1).IN =
      (calculate_basic_parameters { p with wgco := "Y", UN := p.UN * Real.sqrt 3 } d2).IN := by
  have hY : strUpper "Y" = "Y" := by decide
  have h3 : Real.sqrt 3 ≠ 0 := by positivity
  simp only [calculate_basic_parameters, hY, if_neg hw, if_pos]
  have : p.UN * Real.sqrt 3 / Real.sqrt 3 = p.UN := by field_simp
  rw [this]

/-- Witness for C6: the default design switched to a delta connection. -/
theorem C6_star_delta_invariance_witness :
    (calculate_basic_parameters { P0 with wgco := "J" } d0).IN =
      (calculate_basic_parameters { P0 with wgco := "Y", UN := P0.UN * Real.sqrt 3 } d0).IN :=
  C6_star_delta_invariance { P0 with wgco := "J" } d0 d0 (by decide)

/-- C8: in stage 4, a rare-earth magnet (`magnet = 1`) scales remanence and
coercivity by the same factor `1 - (t-20)·0.0012`; a ferrite magnet scales
remanence by `1 - (t-20)·0.0019` and coercivity by `1 + (t-20)·0.004`, the
coercivity correction having the opposite sign. -/
theorem C8_magnet_temperature_correction (p : MotorParameters) (d : Derived) :
    (p.magnet = 1 →
      (calculate_magnet_parameters p d).Br = (1 - (p.t - 20) * 0.0012) * p.Br0 ∧
      (calculate_magnet_parameters p d).Hc = (1 - (p.t - 20) * 0.0012) * p.Hc0 * 1000) ∧
    (p.magnet = 2 →
      (calculate_magnet_parameters p d).Br = (1 - (p.t - 20) * 0.0019) * p.Br0 ∧
      (calculate_magnet_parameters p d).Hc = (1 + (p.t - 20) * 0.004) * p.Hc0 * 1000) := by
  constructor <;> intro hm <;>
    simp only [calculate_magnet_parameters, hm] <;> norm_num

/-- Witness for C8: the default rare-earth design and its ferrite variant. -/
theorem C8_magnet_temperature_correction_witness :
    ((calculate_magnet_parameters P0 d0).Br = (1 - (P0.t - 20) * 0.0012) * P0.Br0 ∧
      (calculate_magnet_parameters P0 d0).Hc = (1 - (P0.t - 20) * 0.0012) * P0.Hc0 * 1000) ∧
    ((calculate_magnet_parameters { P0 with magnet := 2 } d0).Br =
        (1 - (P0.t - 20) * 0.0019) * P0.Br0 ∧
      (calculate_magnet_parameters { P0 with magnet := 2 } d0).Hc =
        (1 + (P0.t - 20) * 0.004) * P0.Hc0 * 1000) :=
  ⟨(C8_magnet_temperature_correction P0 d0).1 rfl,
   (C8_magnet_temperature_correction { P0 with magnet := 2 } d0).2 rfl⟩

/-- C7: every run either fails - with the failure flag set, the error
message, an empty results mapping, and the trace stopping at the failing
stage (5 or 9, the two exception sites) - or completes all eleven stages
with a populated results bundle.  `save_complete_results` runs only after
stage 11, so no partial bundle is ever exposed. -/
theorem C7_failure_aborts_run (p : MotorParameters) (d : Derived) :
    ((calculate_all p d).success = false ∧ (calculate_all p d).results = none ∧
      (calculate_all p d).message = "计算错误" ∧
      ((calculate_all p d).trace = [1, 2, 3, 4, 5] ∨
        (calculate_all p d).trace = [1, 2, 3, 4, 5, 6, 7, 8, 9])) ∨
    ((calculate_all p d).success = true ∧
      (∃ r, (calculate_all p d).results = some r) ∧
      (calculate_all p d).trace = [1, 2, 3, 4, 5, 6, 7, 8, 9, 10, 11]) := by
  rcases h5 : calculate_no_load_magnetic_circuit p (calculate_magnet_parameters p
      (calculate_geometry_parameters p (calculate_winding_parameters p
        (calculate_basic_parameters p d)))) with _ | d5
  · left
    simp [calculate_all, h5]
  · rcases h9 : calculate_losses p (calculate_material_weights p
        (calculate_performance p (calculate_impedances p d5))) with _ | d9
    · left
      simp [calculate_all, h5, h9]
    · right
      simp [calculate_all, h5, h9]

/-- Counterexample to C3 as stated: with the undefined steel grade 6 the run
is *not* rejected before stage 1 - the trace shows stages 1-4 executed and
stage 5 started; only there does the lookup fail. -/
theorem C3_counterexample :
    (calculate_all { P0 with steel_type := 6 } d0).trace = [1, 2, 3, 4, 5] ∧
    (calculate_all { P0 with steel_type := 6 } d0).success = false := by
  have h : H_data (6 : ℝ) = none := by norm_num [H_data]
  constructor <;>
    simp [calculate_all, calculate_no_load_magnetic_circuit, P0, h]

/-- C3 (amended): a parameter record whose steel-grade selector is not one
of the 5 defined grades is rejected - the run fails with an error and no
results - but only at stage 5's first steel-table lookup; stages 1-4 execute
before the failure. -/
theorem C3_invalid_grade_rejected_at_stage5 (p : MotorParameters) (d : Derived)
    (hg : p.steel_type ≠ 1 ∧ p.steel_type ≠ 2 ∧ p.steel_type ≠ 3 ∧
      p.steel_type ≠ 4 ∧ p.steel_type ≠ 5) :
    (calculate_all p d).success = false ∧ (calculate_all p d).results = none ∧
    (calculate_all p d).trace = [1, 2, 3, 4, 5] := by
  have h : H_data p.steel_type = none := by
    rw [H_data, if_neg hg.1, if_neg hg.2.1, if_neg hg.2.2.1, if_neg hg.2.2.2.1,
      if_neg hg.2.2.2.2]
  refine ⟨?_, ?_, ?_⟩ <;>
    simp [calculate_all, calculate_no_load_magnetic_circuit, h]

/-- Witness for the amended C3 at the concrete undefined grade 0. -/
theorem C3_invalid_grade_witness :
    (calculate_all { P0 with steel_type := 0 } d0).success = false ∧
    (calculate_all { P0 with steel_type := 0 } d0).results = none ∧
    (calculate_all { P0 with steel_type := 0 } d0).trace = [1, 2, 3, 4, 5] :=
  C3_invalid_grade_rejected_at_stage5 { P0 with steel_type := 0 } d0
    (by refine ⟨?_, ?_, ?_, ?_, ?_⟩ <;> norm_num [P0])

/-- The break condition of the stage-5 loop: the relative change between the
old iterate and the newly computed `bm0` is below `1e-4`. -/
def convergedAt (m : Mag5) (tbl : List (ℝ × ℝ)) (b : ℝ) : Prop :=
  |((noLoadStep m tbl b).bm0 - b) / (noLoadStep m tbl b).bm0| < 0.0001

lemma noLoadRun_spec (m : Mag5) (tbl : List (ℝ × ℝ)) :
    ∀ (fuel : ℕ) (b0 : ℝ),
      ∃ k ≤ fuel,
        noLoadRun m tbl fuel b0 = noLoadStep m tbl ((dampStep m tbl)^[k] b0) ∧
        (∀ j < k, ¬ convergedAt m tbl ((dampStep m tbl)^[j] b0)) ∧
        (convergedAt m tbl ((dampStep m tbl)^[k] b0) ∨ k = fuel) := by
  intro fuel
  induction fuel with
  | zero =>
      intro b0
      exact ⟨0, le_refl 0, by simp [noLoadRun], by simp, Or.inr rfl⟩
  | succ n ih =>
      intro b0
      by_cases hc : convergedAt m tbl b0
      · refine ⟨0, Nat.zero_le _, ?_, by simp, Or.inl (by simpa using hc)⟩
        rw [noLoadRun, if_pos (by simpa [convergedAt] using hc)]
        simp
      · obtain ⟨k, hk, heq, hno, hlast⟩ := ih (dampStep m tbl b0)
        refine ⟨k + 1, Nat.succ_le_succ hk, ?_, ?_, ?_⟩
        · rw [noLoadRun, if_neg (by simpa [convergedAt] using hc)]
          rw [heq, Function.iterate_succ_apply]
        · intro j hj
          cases j with
          | zero => simpa using hc
          | succ i =>
              rw [Function.iterate_succ_apply]
              exact hno i (by omega)
        · rcases hlast with h | h
          · left
            rw [Function.iterate_succ_apply]
            exact h
          · right
            omega

/-- C1: the stage-5 solve performs at most 30 rounds of the loop body on the
iterate sequence generated by the damped (arithmetic-mean) update; it stops
at the first round whose relative change in `bm` is below `1e-4`, and if no
round among the 30 meets the tolerance the result is simply the values of
the 30th round.  Non-convergence raises no error: stage 5 returns a state
exactly when the steel-grade lookup succeeds, independently of the loop. -/
theorem C1_no_load_iteration_bounded (m : Mag5) (tbl : List (ℝ × ℝ)) (b0 : ℝ) :
    (∃ k < 30,
      noLoadRun m tbl 29 b0 = noLoadStep m tbl ((dampStep m tbl)^[k] b0) ∧
      (∀ j < k, ¬ convergedAt m tbl ((dampStep m tbl)^[j] b0)) ∧
      (convergedAt m tbl ((dampStep m tbl)^[k] b0) ∨ k = 29)) ∧
    ∀ (p : MotorParameters) (d : Derived),
      (calculate_no_load_magnetic_circuit p d).isSome = (H_data p.steel_type).isSome := by
  constructor
  · obtain ⟨k, hk, h⟩ := noLoadRun_spec m tbl 29 b0
    exact ⟨k, by omega, h⟩
  · intro p d
    rcases hH : H_data p.steel_type with _ | h
    · simp [calculate_no_load_magnetic_circuit, hH]
    · simp [calculate_no_load_magnetic_circuit, hH]

lemma noLoadStep_bm0_eq (m : Mag5) (tbl : List (ℝ × ℝ)) (b : ℝ) :
    (noLoadStep m tbl b).bm0 =
      (noLoadStep m tbl b).LUMDAn / ((noLoadStep m tbl b).LUMDAn + 1) := rfl

/-- C10: the stage-5 iterates stay strictly inside (0,1): the initial
estimate is in (0,1) for positive magnet thickness, airgap and leakage
factor; a round's new `bm0 = Λn/(Λn+1)` is in (0,1) whenever the computed
external permeance `Λn` is positive; and the damped update (the arithmetic
mean of the old iterate and the new `bm0`) stays in (0,1). -/
theorem C10_operating_point_in_unit_interval :
    (∀ p : MotorParameters, 0 < p.hM → 0 < p.g → 0 < p.SIGMA0 →
      0 < initialBm p ∧ initialBm p < 1) ∧
    (∀ (m : Mag5) (tbl : List (ℝ × ℝ)) (b : ℝ), 0 < (noLoadStep m tbl b).LUMDAn →
      0 < (noLoadStep m tbl b).bm0 ∧ (noLoadStep m tbl b).bm0 < 1) ∧
    (∀ (m : Mag5) (tbl : List (ℝ × ℝ)) (b : ℝ), 0 < b → b < 1 →
      0 < (noLoadStep m tbl b).bm0 → (noLoadStep m tbl b).bm0 < 1 →
      0 < dampStep m tbl b ∧ dampStep m tbl b < 1) := by
  refine ⟨?_, ?_, ?_⟩
  · intro p h1 h2 h3
    rw [initialBm]
    constructor
    · apply div_pos (by nlinarith) (by nlinarith)
    · rw [div_lt_one (by nlinarith)]
      nlinarith
  · intro m tbl b hL
    rw [noLoadStep_bm0_eq]
    constructor
    · exact div_pos hL (by linarith)
    · rw [div_lt_one (by linarith)]
      linarith
  · intro m tbl b hb0 hb1 hs0 hs1
    rw [dampStep]
    constructor <;> [positivity; linarith]

/-- A synthetic loop-input record with every quantity equal to 1 (and the
empty table), used to exercise the C10 invariants on a concrete input. -/
def mTest : Mag5 :=
  { SIGMA0 := 1, hM := 1, g := 1, g12 := 1, La := 1, Lev := 1, FAIM := 1,
    TAO := 1, t1 := 1, bt1 := 1, hj1 := 1, t2 := 1, bt2 := 1, hj2 := 1,
    hr := 1, ht1 := 1, Lj1 := 1, Lj2 := 1, MUr := 1, Am := 1, Kg := 1 }

lemma mTest_LUMDAn_pos : 0 < (noLoadStep mTest [] (1 / 2)).LUMDAn := by
  simp only [noLoadStep, mTest, linear_interpolation, MUO]
  positivity

/-- Witness for C10 at the default parameters and the synthetic loop input. -/
theorem C10_operating_point_witness :
    (0 < initialBm P0 ∧ initialBm P0 < 1) ∧
    (0 < (noLoadStep mTest [] (1 / 2)).bm0 ∧ (noLoadStep mTest [] (1 / 2)).bm0 < 1) ∧
    (0 < dampStep mTest [] (1 / 2) ∧ dampStep mTest [] (1 / 2) < 1) := by
  have h2 := C10_operating_point_in_unit_interval.2.1 mTest [] (1 / 2) mTest_LUMDAn_pos
  refine ⟨C10_operating_point_in_unit_interval.1 P0 (by norm_num [P0]) (by norm_num [P0])
    (by norm_num [P0]), h2,
    C10_operating_point_in_unit_interval.2.2 mTest [] (1 / 2) (by norm_num) (by norm_num)
      h2.1 h2.2⟩

set_option maxHeartbeats 2000000 in
/-- C9: `calculate_all` is a deterministic function of the parameter record
and the static lookup tables alone: its outcome (success flag, message,
trace and the full results bundle) does not depend on the derived-state
record the engine starts from.  In particular, running the pipeline twice on
an identical parameter record - the second time starting from whatever
state the first run left behind - yields bit-identical results; no state
persists across runs. -/
theorem C9_pipeline_deterministic (p : MotorParameters) (d e : Derived) :
    calculate_all p d = calculate_all p e := by
  rcases hH : H_data p.steel_type with _ | h
  · simp [calculate_all, calculate_no_load_magnetic_circuit, hH]
  · rcases hP : P_data p.steel_type with _ | q
    · simp [calculate_all, calculate_no_load_magnetic_circuit, calculate_losses, hH, hP,
        calculate_basic_parameters, calculate_winding_parameters,
        calculate_geometry_parameters, calculate_magnet_parameters,
        calculate_impedances, calculate_performance, calculate_material_weights,
        mkMag5, calculate_gap_factor]
    · simp [calculate_all, calculate_no_load_magnetic_circuit, calculate_losses, hH, hP,
        calculate_basic_parameters, calculate_winding_parameters,
        calculate_geometry_parameters, calculate_magnet_parameters,
        calculate_impedances, calculate_performance, calculate_material_weights,
        calculate_starting_characteristics, calculate_actual_performance,
        mkMag5, calculate_gap_factor]

/-! ## The reference run (C2): stage-5 analysis at the default parameters -/

lemma strUpperY : strUpper "Y" = "Y" := by decide

/-- The gap factor of the reference geometry (stage-3 tooth pitches). -/
def KgRef : ℝ :=
  (85 / 18 * π * 5.71 / (85 / 18 * π * 5.71 - 14.44)) *
    (168.7 / 32 * π * 4.36 / (168.7 / 32 * π * 4.36 - 4))

/-- The loop-input record of the reference run, written out explicitly. -/
def mag5Ref : Mag5 :=
  { SIGMA0 := 1.28, hM := 5.3, g := 0.65, g12 := 0.15, La := 190, Lev := 1,
    FAIM := 22448.69, TAO := 42.5 * π, t1 := 85 / 18 * π,
    bt1 := 101 / 18 * π - 10.2, hj1 := 25.6, t2 := 168.7 / 32 * π,
    bt2 := 137.1 / 32 * π - 5.5, hj2 := 33.25, hr := 15.8, ht1 := 16.9,
    Lj1 := 29.3 * π, Lj2 := 11.65625 * π, MUr := 1.15 / (MUO * 875000),
    Am := 20900, Kg := KgRef }

lemma m5Ref_eq :
    mkMag5 P0 (calculate_magnet_parameters P0 (calculate_geometry_parameters P0
      (calculate_winding_parameters P0 (calculate_basic_parameters P0 d0)))) = mag5Ref := by
  simp only [mkMag5, calculate_magnet_parameters, calculate_geometry_parameters,
    calculate_winding_parameters, calculate_basic_parameters, calculate_gap_factor,
    P0, d0, strUpperY, mag5Ref, KgRef, MUO]
  norm_num [Mag5.mk.injEq]
  and_intros <;> first | trivial | ring

lemma sqrt3_bounds : 1.7320508 < Real.sqrt 3 ∧ Real.sqrt 3 < 1.7320509 := by
  constructor <;>
    nlinarith [Real.sq_sqrt (by norm_num : (0:ℝ) ≤ 3), Real.sqrt_nonneg 3]

lemma KgRef_lo : (1.276 : ℝ) ≤ KgRef := by
  have hπl := Real.pi_gt_d6
  have hπu := Real.pi_lt_d6
  have hA_lo : (84.70 : ℝ) ≤ 85 / 18 * π * 5.71 := by nlinarith
  have hA_hi : 85 / 18 * π * 5.71 ≤ (84.71 : ℝ) := by nlinarith
  have hB_lo : (72.21 : ℝ) ≤ 168.7 / 32 * π * 4.36 := by nlinarith
  have hB_hi : 168.7 / 32 * π * 4.36 ≤ (72.22 : ℝ) := by nlinarith
  rw [KgRef]
  have h1 : (1.2054 : ℝ) ≤ 85 / 18 * π * 5.71 / (85 / 18 * π * 5.71 - 14.44) := by
    rw [le_div_iff (by linarith)]
    nlinarith
  have h2 : (1.0586 : ℝ) ≤ 168.7 / 32 * π * 4.36 / (168.7 / 32 * π * 4.36 - 4) := by
    rw [le_div_iff (by linarith)]
    nlinarith
  nlinarith

/-- One round of the stage-5 loop of the reference run. -/
def stepRef (b : ℝ) : StepOut := noLoadStep mag5Ref (B_data.zip H_data_5) b

lemma interpH5_ge80 (x : ℝ) :
    (80 : ℝ) ≤ linear_interpolation (B_data.zip H_data_5) x := by
  have hs := sortedH5
  have hm := monoH5
  rw [SortedPts, zipH5] at hs
  rw [MonoPts, zipH5] at hm
  rw [zipH5]
  exact linear_interpolation_ge_first _ _ _ _ hs hm

lemma H5_affine_grid :
    ∀ q ∈ B_data.zip H_data_5, 260 * q.1 + (-65) ≤ q.2 := by
  intro q hq
  rw [show B_data.zip H_data_5 =
    [((0.40:ℝ), (80:ℝ)), (0.45, 95), (0.50, 110), (0.55, 125), (0.60, 140),
     (0.65, 160), (0.70, 180), (0.75, 200), (0.80, 225), (0.85, 250),
     (0.90, 280), (0.95, 315), (1.00, 355), (1.05, 400), (1.10, 450),
     (1.15, 510), (1.20, 580), (1.25, 660), (1.30, 750), (1.35, 850),
     (1.40, 970), (1.45, 1100), (1.50, 1250), (1.55, 1420), (1.60, 1620),
     (1.65, 1840), (1.70, 2100), (1.75, 2400), (1.80, 2750), (1.85, 3150),
     (1.90, 3600), (1.95, 4100), (2.00, 4700), (2.05, 5400), (2.10, 6200),
     (2.15, 7100), (2.20, 8100)] from rfl] at hq
  fin_cases hq <;> norm_num

lemma interpH5_affine (x : ℝ) (hx : x ≤ 2.20) :
    260 * x + (-65) ≤ linear_interpolation (B_data.zip H_data_5) x := by
  have hs := sortedH5
  rw [SortedPts, zipH5] at hs
  have hgrid := H5_affine_grid
  rw [zipH5] at hgrid
  rw [zipH5]
  exact linear_interpolation_affine 260 (-65) _ _ _ x hs hgrid (by norm_num)
    (by rw [lastH5]; exact hx)

lemma pi_sq_ub : π ^ 2 ≤ 9.8696045 := by
  nlinarith [Real.pi_lt_d20, Real.pi_pos]

set_option maxHeartbeats 1600000 in
/-- On the reference geometry, any operating point in (0,1] produces an
external permeance between 0 and 9/11, hence `bm0 ≤ 9/20`. -/
lemma stepRef_LUMDAn_bounds (b : ℝ) (hb0 : 0 < b) (hb1 : b ≤ 1) :
    0 < (stepRef b).LUMDAn ∧ (stepRef b).LUMDAn ≤ 9 / 11 := by
  have hπl := Real.pi_gt_d6
  have hπu := Real.pi_lt_d6
  have hMUO0 : MUO ≠ 0 := by rw [MUO]; positivity
  have hFI : (stepRef b).FI01 = b * 22448.69 / 1.28 * 1e-6 := rfl
  have hBg : (stepRef b).Bg =
      (stepRef b).FI01 / (0.64 * (42.5 * π) * (190 + 2 * 0.65)) * 1e6 := rfl
  have hBj1 : (stepRef b).Bj1 = (stepRef b).FI01 / (2 * 190 * 0.93 * 25.6) * 1e6 := rfl
  have hHts : (stepRef b).Hts =
      linear_interpolation (B_data.zip H_data_5) (stepRef b).Bts := rfl
  have hHjs : (stepRef b).Hjs =
      linear_interpolation (B_data.zip H_data_5) (stepRef b).Bj1 := rfl
  have hHtr : (stepRef b).Htr =
      linear_interpolation (B_data.zip H_data_5) (stepRef b).Btr := rfl
  have hHjr : (stepRef b).Hjr =
      linear_interpolation (B_data.zip H_data_5) (stepRef b).Bj2 := rfl
  have hFt1 : (stepRef b).Ft1 = (stepRef b).Hts * 16.9 / 10 := rfl
  have hFj1 : (stepRef b).Fj1 = (stepRef b).Hjs * (29.3 * π) / 10 := rfl
  have hFt2 : (stepRef b).Ft2 = (stepRef b).Htr * 15.8 / 10 := rfl
  have hFj2 : (stepRef b).Fj2 = (stepRef b).Hjr * (11.65625 * π) / 10 := rfl
  have hFg : (stepRef b).Fg = (stepRef b).Bg / MUO * (0.15 + 0.65 * KgRef) * 1e-3 := rfl
  have hSUMF : (stepRef b).SUMF = 2 * ((stepRef b).Fg + (stepRef b).Ft1 +
      (stepRef b).Fj1 + (stepRef b).Ft2 + (stepRef b).Fj2) := rfl
  have hNUM : (stepRef b).NUMDAm = (stepRef b).FI01 / (stepRef b).SUMF := rfl
  have hH1 : (80 : ℝ) ≤ (stepRef b).Hts := by rw [hHts]; exact interpH5_ge80 _
  have hH2 : (80 : ℝ) ≤ (stepRef b).Hjs := by rw [hHjs]; exact interpH5_ge80 _
  have hH3 : (80 : ℝ) ≤ (stepRef b).Htr := by rw [hHtr]; exact interpH5_ge80 _
  have hH4 : (80 : ℝ) ≤ (stepRef b).Hjr := by rw [hHjr]; exact interpH5_ge80 _
  have hKg := KgRef_lo
  have hFgflat : (stepRef b).Fg * (0.64 * 42.5 * (190 + 2 * 0.65) * 4 * 1e-7) * π ^ 2 =
      2.630705859375 * b + 11.399725390625 * (b * KgRef) := by
    rw [hFg, hBg, hFI, MUO]
    field_simp
    ring
  have hFg_nonneg : 0 ≤ (stepRef b).Fg := by
    rw [hFg, hBg, hFI, MUO]
    have hb2 : (0 : ℝ) ≤ b := hb0.le
    have h4 : (0 : ℝ) ≤ 0.15 + 0.65 * KgRef := by linarith only [hKg]
    positivity
  have hRHS : b * 17.176 ≤ 2.630705859375 * b + 11.399725390625 * (b * KgRef) := by
    nlinarith only [hKg, hb0.le]
  have hFg_lo : 836 * b ≤ (stepRef b).Fg := by
    have h5 : (stepRef b).Fg * (0.64 * 42.5 * (190 + 2 * 0.65) * 4 * 1e-7) * π ^ 2 ≤
        (stepRef b).Fg * (0.64 * 42.5 * (190 + 2 * 0.65) * 4 * 1e-7) * 9.8696045 :=
      mul_le_mul_of_nonneg_left pi_sq_ub
        (mul_nonneg hFg_nonneg (by norm_num : (0:ℝ) ≤ 0.64 * 42.5 * (190 + 2 * 0.65) * 4 * 1e-7))
    linarith only [hFgflat, hRHS, h5, hb0]
  have hFt1b : (135.2 : ℝ) ≤ (stepRef b).Ft1 := by
    rw [hFt1]; linarith only [hH1]
  have hFt2b : (126.4 : ℝ) ≤ (stepRef b).Ft2 := by
    rw [hFt2]; linarith only [hH3]
  have hFj1b : (736.3 : ℝ) ≤ (stepRef b).Fj1 := by
    rw [hFj1]; nlinarith only [hH2, hπl]
  have hFj2b : (292.9 : ℝ) ≤ (stepRef b).Fj2 := by
    rw [hFj2]; nlinarith only [hH4, hπl]
  have hSUMFpos : 0 < (stepRef b).SUMF := by
    rw [hSUMF]
    linarith only [hFg_lo, hFt1b, hFj1b, hFt2b, hFj2b, hb0]
  have hBj1flat : (stepRef b).Bj1 = (17538.0390625 / 9047.04) * b := by
    rw [hBj1, hFI]; ring
  have hBj1ub : (stepRef b).Bj1 ≤ 1.9386 * b := by
    rw [hBj1flat]; linarith only [hb0.le]
  have hBj1lb : 1.938 * b ≤ (stepRef b).Bj1 := by
    rw [hBj1flat]; linarith only [hb0.le]
  have hBj1le : (stepRef b).Bj1 ≤ 2.20 := by
    linarith only [hBj1ub, hb1, hb0.le]
  have hHjs_aff : 260 * (stepRef b).Bj1 + (-65) ≤ (stepRef b).Hjs := by
    rw [hHjs]
    exact interpH5_affine _ hBj1le
  have hLm : (stepRef b).LUMDAm = (stepRef b).NUMDAm * 2 * 5.3 * 1e-3 /
      (1.15 / (MUO * 875000) * MUO * 20900 * 1e-6) := by
    have hif : (stepRef b).LUMDAm = if mag5Ref.Lev = 1 then
        (stepRef b).NUMDAm * 2 * mag5Ref.hM * 1e-3 /
          (mag5Ref.MUr * MUO * mag5Ref.Am * 1e-6)
      else (stepRef b).NUMDAm * mag5Ref.hM * 1e-3 /
          (mag5Ref.MUr * MUO * mag5Ref.Am * 1e-6) := rfl
    rw [hif, if_pos (show mag5Ref.Lev = 1 from rfl)]
    rfl
  have hLn2 : (stepRef b).LUMDAn = 1.28 * (stepRef b).LUMDAm := rfl
  have hden : 1.15 / (MUO * 875000) * MUO * 20900 * 1e-6 =
      1.15 * 20900 * 1e-6 / 875000 := by
    field_simp
    ring
  have hfrac : (stepRef b).LUMDAn = 8662.85 * b / (stepRef b).SUMF := by
    rw [hLn2, hLm, hden, hNUM, hFI]
    field_simp [hSUMFpos.ne']
    ring
  constructor
  · rw [hfrac]
    exact div_pos (mul_pos (by norm_num) hb0) hSUMFpos
  · rw [hfrac, div_le_iff hSUMFpos]
    rw [hSUMF]
    rcases le_total b 0.28 with hc | hc
    · linarith only [hFg_lo, hFt1b, hFj1b, hFt2b, hFj2b, hc, hb0]
    · have hX : 503.88 * b - 65 ≤ (stepRef b).Hjs := by
        refine le_trans ?_ hHjs_aff
        linarith only [hBj1lb]
      have hX0 : (0 : ℝ) ≤ 503.88 * b - 65 := by linarith only [hc]
      have hXpi : (503.88 * b - 65) * 3.141592 ≤ (stepRef b).Hjs * π := by
        nlinarith only [hX, hX0, hπl, Real.pi_pos]
      have hFj1c : 4638 * b - 599 ≤ (stepRef b).Fj1 := by
        rw [hFj1]
        linarith only [hXpi, hb0]
      linarith only [hFg_lo, hFt1b, hFj1c, hFt2b, hFj2b, hc, hb0]

lemma stepRef_bm0_bounds (b : ℝ) (hb0 : 0 < b) (hb1 : b ≤ 1) :
    0 < (stepRef b).bm0 ∧ (stepRef b).bm0 ≤ 9 / 20 := by
  obtain ⟨h1, h2⟩ := stepRef_LUMDAn_bounds b hb0 hb1
  have hbm : (stepRef b).bm0 = (stepRef b).LUMDAn / ((stepRef b).LUMDAn + 1) := rfl
  rw [hbm]
  constructor
  · exact div_pos h1 (by linarith)
  · rw [div_le_iff (by linarith)]
    linarith

lemma Bts_flatten_aux (A T t1 X D c : ℝ) (hT : T ≠ 0) (hX : X ≠ 0) (hD : D ≠ 0) :
    (A * 1e-6 / (0.64 * T * D) * 1e6) * t1 * D / X * (0.64 * c * X) = A * c * t1 / T := by
  field_simp
  ring

lemma Bts_flatten_aux2 (A : ℝ) : A * 42.5 * (85 / 18 * π) / (42.5 * π) = A * (85 / 18) := by
  field_simp [Real.pi_ne_zero]
  ring

lemma stepRef_Bts_ub (b : ℝ) (hb : 0 ≤ b) : (stepRef b).Bts ≤ 2.32 * b := by
  have hπl := Real.pi_gt_d6
  have hFI : (stepRef b).FI01 = b * 22448.69 / 1.28 * 1e-6 := rfl
  have hBg : (stepRef b).Bg =
      (stepRef b).FI01 / (0.64 * (42.5 * π) * (190 + 2 * 0.65)) * 1e6 := rfl
  have hBts : (stepRef b).Bts = (stepRef b).Bg * (85 / 18 * π) * (190 + 2 * 0.65) /
      (190 * 0.93 * (101 / 18 * π - 10.2)) := rfl
  have hbt1_lo : (7.4278 : ℝ) ≤ 101 / 18 * π - 10.2 := by linarith only [hπl]
  have hX0 : (190 * 0.93 * (101 / 18 * π - 10.2) : ℝ) ≠ 0 := by
    have : (0:ℝ) < 101 / 18 * π - 10.2 := by linarith only [hπl]
    positivity
  have hT0 : (42.5 * π : ℝ) ≠ 0 := by positivity
  have hD0 : ((190 : ℝ) + 2 * 0.65) ≠ 0 := by norm_num
  have hflat : (stepRef b).Bts * (0.64 * 42.5 * (190 * 0.93 * (101 / 18 * π - 10.2))) =
      b * 22448.69 / 1.28 * (85 / 18) := by
    rw [hBts, hBg, hFI,
      Bts_flatten_aux (b * 22448.69 / 1.28) (42.5 * π) (85 / 18 * π)
        (190 * 0.93 * (101 / 18 * π - 10.2)) (190 + 2 * 0.65) 42.5 hT0 hX0 hD0]
    exact Bts_flatten_aux2 (b * 22448.69 / 1.28)
  have hflat2 : (stepRef b).Bts * (0.64 * 42.5 * (190 * 0.93 * (101 / 18 * π - 10.2))) =
      b * 17538.0390625 * 85 / 18 := by
    rw [hflat]; ring
  nlinarith only [hflat2, hbt1_lo, hb]

lemma stepRef_Bj1_ub2 (b : ℝ) (hb : 0 ≤ b) : (stepRef b).Bj1 ≤ 1.9386 * b := by
  have hFI : (stepRef b).FI01 = b * 22448.69 / 1.28 * 1e-6 := rfl
  have hBj1 : (stepRef b).Bj1 = (stepRef b).FI01 / (2 * 190 * 0.93 * 25.6) * 1e6 := rfl
  have hBj1flat : (stepRef b).Bj1 = (17538.0390625 / 9047.04) * b := by
    rw [hBj1, hFI]; ring
  rw [hBj1flat]
  linarith only [hb]

lemma runRef_spec : ∀ (fuel : ℕ) (b0 c : ℝ), 0 < b0 → b0 < 1 → 0 ≤ c → b0 ≤ 9 / 20 + c →
    ∃ bf, noLoadRun mag5Ref (B_data.zip H_data_5) fuel b0 = stepRef bf ∧ 0 < bf ∧ bf < 1 ∧
      (bf ≤ 9 / 20 + c / 2 ^ fuel ∨ bf ≤ 0.4502) := by
  intro fuel
  induction fuel with
  | zero =>
      intro b0 c h1 h2 h3 h4
      exact ⟨b0, rfl, h1, h2, Or.inl (by simpa using h4)⟩
  | succ n ih =>
      intro b0 c h1 h2 h3 h4
      have hbm := stepRef_bm0_bounds b0 h1 h2.le
      have hbmP : (noLoadStep mag5Ref (B_data.zip H_data_5) b0).bm0 = (stepRef b0).bm0 := rfl
      by_cases hc : |((noLoadStep mag5Ref (B_data.zip H_data_5) b0).bm0 - b0) /
          (noLoadStep mag5Ref (B_data.zip H_data_5) b0).bm0| < 0.0001
      · refine ⟨b0, ?_, h1, h2, Or.inr ?_⟩
        · simp only [noLoadRun]
          rw [if_pos hc]
          rfl
        · have habs := (abs_lt.mp hc).1
          rw [hbmP] at habs
          rw [lt_div_iff hbm.1] at habs
          linarith [hbm.2, habs]
      · obtain ⟨bf, heq, hf1, hf2, hf3⟩ := ih (dampStep mag5Ref (B_data.zip H_data_5) b0) (c / 2)
          (by rw [dampStep]; have := hbm.1; positivity)
          (by rw [dampStep]; have h6 := hbm.2; simp only [hbmP] at *; linarith)
          (by linarith)
          (by rw [dampStep]; simp only [hbmP] at *; linarith [hbm.2])
        refine ⟨bf, ?_, hf1, hf2, ?_⟩
        · simp only [noLoadRun]
          rw [if_neg hc]
          exact heq
        · rcases hf3 with h | h
          · left
            have hpow : (c / 2) / 2 ^ n = c / 2 ^ (n + 1) := by
              rw [pow_succ]
              ring
            rw [hpow] at h
            exact h
          · right
            exact h

lemma runRef_final :
    ∃ bf, noLoadRun mag5Ref (B_data.zip H_data_5) 29 (initialBm P0) = stepRef bf ∧
      0 < bf ∧ bf ≤ 1 ∧ bf ≤ 0.451 := by
  have h1 : initialBm P0 = 0.95 * 1.28 * 5.3 / (1.28 * 5.3 + 0.65) := rfl
  obtain ⟨bf, heq, hf1, hf2, hf3⟩ := runRef_spec 29 (initialBm P0) 0.44
    (by rw [h1]; norm_num) (by rw [h1]; norm_num) (by norm_num) (by rw [h1]; norm_num)
  refine ⟨bf, heq, hf1, hf2.le, ?_⟩
  rcases hf3 with h | h
  · have hp : (0.44 : ℝ) / 2 ^ 29 ≤ 0.0005 := by norm_num
    linarith
  · linarith

lemma npInterpAux_cons (x0 y0 x1 y1 : ℝ) (rest : List (ℝ × ℝ)) (x : ℝ) :
    npInterpAux x0 y0 ((x1, y1) :: rest) x =
      if x ≤ x1 then y0 + (y1 - y0) * (x - x0) / (x1 - x0)
      else npInterpAux x1 y1 rest x := rfl

lemma interpP5_105 : linear_interpolation (B_data.zip P_data_5) 1.05 = 9.3 := by
  norm_num [linear_interpolation, npInterpAux_cons, B_data, P_data_5, List.zip_cons_cons,
    List.zip_nil_right, List.getLastD]

lemma interpP5_090 : linear_interpolation (B_data.zip P_data_5) 0.90 = 5.4 := by
  norm_num [linear_interpolation, npInterpAux_cons, B_data, P_data_5, List.zip_cons_cons,
    List.zip_nil_right, List.getLastD]

lemma interpP5_nonneg (x : ℝ) :
    (0 : ℝ) ≤ linear_interpolation (B_data.zip P_data_5) x := by
  have hs := sortedP5
  have hm := monoP5
  rw [zipP5] at hs hm ⊢
  have := linear_interpolation_ge_first _ _ _ x hs hm
  linarith

/-- Upper bound on the grade-5 loss lookup below a grid abscissa. -/
lemma interpP5_le (x c v : ℝ) (hx : x ≤ c)
    (hev : linear_interpolation (B_data.zip P_data_5) c = v) :
    linear_interpolation (B_data.zip P_data_5) x ≤ v := by
  have hs := sortedP5
  have hm := monoP5
  rw [zipP5] at hs hm
  rw [← hev, zipP5]
  exact linear_interpolation_mono _ _ _ _ _ hs hm hx

/-- The stage-5 output record of the reference run, as a function of the
final loop iterate `bf`. -/
def d5R (bf : ℝ) : Derived :=
  let d := calculate_magnet_parameters P0 (calculate_geometry_parameters P0
    (calculate_winding_parameters P0 (calculate_basic_parameters P0 d0)))
  let r := stepRef bf
  let RFAi : ℝ := 0.64
  let FI0 := r.bm0 * d.FAIM / P0.SIGMA0 * 1e-6
  let Kf := 4 / π * Real.sin (π * RFAi / 2)
  let Bg1 := Kf * r.FI01 / (RFAi * d.TAO * (P0.La + 2 * P0.g)) * 1e6
  let KFI := 8 / (π * π) / RFAi * Real.sin (RFAi * π / 2)
  let E0 := 4.44 * P0.f * d.N * d.Kdp * FI0 * KFI
  let Fgg := r.Bg / MUO * P0.g * calculate_gap_factor P0 d.t1 d.t2 * 1e-3
  let Kst := (Fgg + r.Ft1 + r.Ft2) / Fgg
  { d with bm0 := r.bm0, LUMDAn := r.LUMDAn,
           LUMDAs := (P0.SIGMA0 - 1) * r.LUMDAm, FI0 := FI0,
           Bg := r.Bg, Bts := r.Bts, Bj1 := r.Bj1, Btr := r.Btr,
           Bj2 := r.Bj2, Bg1 := Bg1, E0 := E0, Kst := Kst }

/-- Stage 9 at the default parameters always succeeds: grade 5 is in the
loss table, and the stage is the source body with the table resolved. -/
def d9F (d : Derived) : Derived :=
  let tbl := B_data.zip P_data_5
  let pCu := P0.m * d.IN ^ 2 * d.Rs
  let pt1 := linear_interpolation tbl d.Bts
  let pj1 := linear_interpolation tbl d.Bj1
  let pFe := 2.5 * d.Vt1 * pt1 / 1e6 + 2 * d.Vj1 * pj1 / 1e6
  let pfw := P0.pfwl * P0.PN * 1000
  let ps := (d.IN / d.IN) ^ 2 * P0.psl * P0.PN * 1000
  let pSum := pCu + pFe + pfw + ps
  { d with pCu := pCu, pFe := pFe, pfw := pfw, ps := ps, pSum := pSum }

lemma calculate_losses_P0 (d : Derived) : calculate_losses P0 d = some (d9F d) := by
  have hP : P_data P0.steel_type = some P_data_5 := by norm_num [P_data, P0]
  unfold calculate_losses
  split
  · next heq =>
      rw [hP] at heq
      exact Option.noConfusion heq
  · next pd heq =>
      rw [hP] at heq
      obtain rfl : P_data_5 = pd := Option.some.inj heq
      rfl

lemma stage5_some (bf : ℝ)
    (h : noLoadRun mag5Ref (B_data.zip H_data_5) 29 (initialBm P0) = stepRef bf) :
    calculate_no_load_magnetic_circuit P0
      (calculate_magnet_parameters P0 (calculate_geometry_parameters P0
        (calculate_winding_parameters P0 (calculate_basic_parameters P0 d0)))) =
      some (d5R bf) := by
  have hH : H_data P0.steel_type = some H_data_5 := by norm_num [H_data, P0]
  unfold calculate_no_load_magnetic_circuit
  split
  · next heq =>
      rw [hH] at heq
      exact Option.noConfusion heq
  · next hv heq =>
      rw [hH] at heq
      obtain rfl : H_data_5 = hv := Option.some.inj heq
      simp only [m5Ref_eq, h]
      rfl

/-- Reduction of `calculate_all` when both fallible stages succeed. -/
lemma calculate_all_eq (p : MotorParameters) (d d5 d9 : Derived)
    (h5 : calculate_no_load_magnetic_circuit p
      (calculate_magnet_parameters p (calculate_geometry_parameters p
        (calculate_winding_parameters p (calculate_basic_parameters p d)))) = some d5)
    (h9 : calculate_losses p (calculate_material_weights p (calculate_performance p
      (calculate_impedances p d5))) = some d9) :
    calculate_all p d =
      { trace := [1, 2, 3, 4, 5, 6, 7, 8, 9, 10, 11], success := true,
        message := "计算完成",
        results := some (calculate_actual_performance p
          (calculate_starting_characteristics p d9)) } := by
  simp only [calculate_all]
  split
  · next heq =>
      rw [h5] at heq
      exact Option.noConfusion heq
  · next e5 heq =>
      rw [h5] at heq
      obtain rfl : d5 = e5 := Option.some.inj heq
      split
      · next heq2 =>
          rw [h9] at heq2
          exact Option.noConfusion heq2
      · next e9 heq2 =>
          rw [h9] at heq2
          obtain rfl : d9 = e9 := Option.some.inj heq2
          rfl

/-- The final derived state of the reference run, as a function of the
final stage-5 iterate `bf`. -/
def dFinal (bf : ℝ) : Derived :=
  calculate_actual_performance P0 (calculate_starting_characteristics P0
    (d9F (calculate_material_weights P0 (calculate_performance P0
      (calculate_impedances P0 (d5R bf))))))

lemma refRun :
    ∃ bf, 0 < bf ∧ bf ≤ 1 ∧ bf ≤ 0.451 ∧
      calculate_all P0 d0 =
        { trace := [1, 2, 3, 4, 5, 6, 7, 8, 9, 10, 11], success := true,
          message := "计算完成", results := some (dFinal bf) } := by
  obtain ⟨bf, h, h0, h1, h451⟩ := runRef_final
  exact ⟨bf, h0, h1, h451,
    calculate_all_eq P0 d0 (d5R bf) _ (stage5_some bf h) (calculate_losses_P0 _)⟩

lemma tan30 : Real.tan (P0.ALFA1 * π / 180) = Real.sqrt 3 / 3 := by
  have h : (P0.ALFA1 * π / 180 : ℝ) = π / 6 := by
    rw [show (P0.ALFA1 : ℝ) = 30.0 from rfl]
    ring
  rw [h, Real.tan_eq_sin_div_cos, Real.sin_pi_div_six, Real.cos_pi_div_six]
  have h3 : (0 : ℝ) < Real.sqrt 3 := Real.sqrt_pos.mpr (by norm_num)
  have h9 : Real.sqrt 3 * Real.sqrt 3 = 3 := Real.mul_self_sqrt (by norm_num)
  rw [div_eq_div_iff (by positivity) (by norm_num)]
  nlinarith [h9]

lemma dFinal_IN (bf : ℝ) : (dFinal bf).IN = 15000 * Real.sqrt 3 / 1012.605 := by
  have h1 : (dFinal bf).IN = P0.PN * 1000 /
      (P0.m * (if strUpper P0.wgco = "Y" then P0.UN / Real.sqrt 3 else P0.UN) *
        P0.eff * P0.cosfi) := rfl
  rw [h1, if_pos (show strUpper P0.wgco = "Y" from strUpperY)]
  have h3 : Real.sqrt 3 ≠ 0 := by positivity
  simp only [P0]
  field_simp
  ring

lemma INval_bounds :
    25.65 < (15000 : ℝ) * Real.sqrt 3 / 1012.605 ∧
      (15000 : ℝ) * Real.sqrt 3 / 1012.605 < 25.66 := by
  obtain ⟨hl, hu⟩ := sqrt3_bounds
  constructor
  · rw [lt_div_iff (by norm_num)]
    nlinarith only [hl]
  · rw [div_lt_iff (by norm_num)]
    nlinarith only [hu]

lemma Rs_bounds (bf : ℝ) :
    0 ≤ (calculate_impedances P0 (d5R bf)).Rs ∧
      (calculate_impedances P0 (d5R bf)).Rs ≤ 0.2134 := by
  have hmem1 : (P0.LE : ℝ) ∈ ([1, 2, 3] : List ℝ) := by
    norm_num [P0, List.mem_cons]
  have hp1 : ¬((P0.p : ℝ) = 1) := by norm_num [P0]
  have hmem2 : (P0.p : ℝ) ∈ ([2, 3] : List ℝ) := by
    norm_num [P0, List.mem_cons]
  have hmem3 : (P0.LE : ℝ) ∈ ([1, 2] : List ℝ) := by
    norm_num [P0, List.mem_cons]
  have hRs : (calculate_impedances P0 (d5R bf)).Rs =
      0.0175 * (1 + 0.004 * (P0.t - 15)) *
        (2 * (P0.La + 2 * (P0.d +
          (if P0.LE ∈ ([1, 2, 3] : List ℝ) then
             if P0.p = 1 then (0.58 : ℝ)
             else if P0.p ∈ ([2, 3] : List ℝ) then 0.6
             else 0.625
           else 1 / Real.sqrt (1 - ((P0.b1 + 2 * P0.R1) /
               (P0.b1 + 2 * P0.R1 + 2 * (d5R bf).bt1)) ^ 2) / 2) *
          (if P0.LE ∈ ([1, 2] : List ℝ) then
             π / 2 / P0.p * 0.85 *
               (P0.Di1 + 2 * (P0.h01 + (d5R bf).hs1) + P0.h12 - (d5R bf).hs1 + P0.R1)
           else
             π / 2 / P0.p *
               (P0.Di1 + 2 * (P0.h01 + (d5R bf).hs1) + P0.h12 - (d5R bf).hs1 + P0.R1))))) *
        (d5R bf).N /
        (P0.a * (P0.Nt1 * π * P0.d11 ^ 2 / 4 + P0.Nt2 * π * P0.d12 ^ 2 / 4) * 1000) := rfl
  have hhs0 : (d5R bf).hs1 = (P0.b1 - P0.b01) / 2 * Real.tan (P0.ALFA1 * π / 180) := rfl
  have hhs1 : (d5R bf).hs1 = 1.95 * (Real.sqrt 3 / 3) := by
    rw [hhs0, tan30]
    norm_num [P0]
  have hN : (d5R bf).N = 78 := by
    have h : (d5R bf).N = P0.Q1 * P0.Ns / (2 * P0.m * P0.a) := rfl
    rw [h]
    norm_num [P0]
  have hval : (calculate_impedances P0 (d5R bf)).Rs =
      3.3852 * (220 + 0.255 * (π * (191.9 + 0.65 * Real.sqrt 3))) / (1891.875 * π) := by
    rw [hRs, if_pos hmem1, if_neg hp1, if_pos hmem2, if_pos hmem3, hhs1, hN]
    simp only [P0]
    ring
  constructor
  · rw [hval]
    positivity
  · rw [hval, div_le_iff (by positivity)]
    have hπl := Real.pi_gt_d6
    have hπu := Real.pi_lt_d6
    have hs3 := sqrt3_bounds
    have hps : π * Real.sqrt 3 ≤ 5.4415 := by
      nlinarith only [hπu, hs3.2, Real.pi_pos, Real.sqrt_nonneg 3]
    nlinarith only [hπl, hps]

lemma pSum_bounds (bf : ℝ) (h0 : 0 < bf) (h451 : bf ≤ 0.451) :
    0 < (dFinal bf).pSum ∧ (dFinal bf).pSum ≤ 862 := by
  have hSum : (dFinal bf).pSum =
      P0.m * (dFinal bf).IN ^ 2 * (calculate_impedances P0 (d5R bf)).Rs +
        (2.5 * (d5R bf).Vt1 *
            linear_interpolation (B_data.zip P_data_5) (stepRef bf).Bts / 1e6 +
          2 * (d5R bf).Vj1 *
            linear_interpolation (B_data.zip P_data_5) (stepRef bf).Bj1 / 1e6) +
        P0.pfwl * P0.PN * 1000 +
        ((dFinal bf).IN / (dFinal bf).IN) ^ 2 * P0.psl * P0.PN * 1000 := rfl
  rw [hSum, dFinal_IN]
  have hV0 : (0 : ℝ) < 15000 * Real.sqrt 3 / 1012.605 := by positivity
  have hdiv : (15000 * Real.sqrt 3 / 1012.605) / (15000 * Real.sqrt 3 / 1012.605) = 1 :=
    div_self (ne_of_gt hV0)
  rw [hdiv, show (P0.m : ℝ) = 3 from rfl, show (P0.pfwl : ℝ) = 0.0107 from rfl,
    show (P0.psl : ℝ) = 0.015 from rfl, show (P0.PN : ℝ) = 15.0 from rfl]
  have hINb := INval_bounds
  have hsq : (15000 * Real.sqrt 3 / 1012.605) ^ 2 < 658.44 := by
    nlinarith only [hINb.1, hINb.2]
  have hsq0 : (0 : ℝ) ≤ (15000 * Real.sqrt 3 / 1012.605) ^ 2 := sq_nonneg _
  obtain ⟨hRs0, hRs2⟩ := Rs_bounds bf
  have hBts : (stepRef bf).Bts ≤ 1.05 := by
    have h := stepRef_Bts_ub bf h0.le
    linarith
  have hpt1 : linear_interpolation (B_data.zip P_data_5) (stepRef bf).Bts ≤ 9.3 :=
    interpP5_le _ _ _ hBts interpP5_105
  have hpt0 : 0 ≤ linear_interpolation (B_data.zip P_data_5) (stepRef bf).Bts :=
    interpP5_nonneg _
  have hBj1 : (stepRef bf).Bj1 ≤ 0.90 := by
    have h := stepRef_Bj1_ub2 bf h0.le
    linarith
  have hpj1 : linear_interpolation (B_data.zip P_data_5) (stepRef bf).Bj1 ≤ 5.4 :=
    interpP5_le _ _ _ hBj1 interpP5_090
  have hpj0 : 0 ≤ linear_interpolation (B_data.zip P_data_5) (stepRef bf).Bj1 :=
    interpP5_nonneg _
  have hπl := Real.pi_gt_d6
  have hπu := Real.pi_lt_d6
  have hVt1r : (d5R bf).Vt1 = P0.Q1 * P0.La * 0.93 * (P0.h12 + P0.R1 / 3) *
      ((P0.Di1 + 2 * (P0.h01 + P0.h12)) * π / P0.Q1 - 2 * P0.R1) := rfl
  have hVt1e : (d5R bf).Vt1 = 107504.28 * (101 / 18 * π - 10.2) := by
    rw [hVt1r]
    simp only [P0]
    ring
  have hVj1r : (d5R bf).Vj1 = π *
      (P0.D1 - ((P0.D1 - P0.Di1) / 2 - (P0.h01 + P0.h12 + 2 * P0.R1 / 3))) *
      P0.La * 0.93 *
      ((P0.D1 - P0.Di1) / 2 - (P0.h01 + P0.h12 + 2 * P0.R1 / 3)) := rfl
  have hVj1e : (d5R bf).Vj1 = 1060313.088 * π := by
    rw [hVj1r]
    simp only [P0]
    ring
  have hVt1b : 0 ≤ (d5R bf).Vt1 ∧ (d5R bf).Vt1 ≤ 798600 := by
    rw [hVt1e]
    constructor
    · nlinarith only [hπl]
    · nlinarith only [hπu]
  have hVj1b : 0 ≤ (d5R bf).Vj1 ∧ (d5R bf).Vj1 ≤ 3331100 := by
    rw [hVj1e]
    constructor
    · positivity
    · nlinarith only [hπu]
  have hpcu0 : 0 ≤ 3 * (15000 * Real.sqrt 3 / 1012.605) ^ 2 *
      (calculate_impedances P0 (d5R bf)).Rs :=
    mul_nonneg (mul_nonneg (by norm_num) hsq0) hRs0
  have hpcu : 3 * (15000 * Real.sqrt 3 / 1012.605) ^ 2 *
      (calculate_impedances P0 (d5R bf)).Rs ≤ 421.6 := by
    nlinarith only [hsq, hsq0, hRs0, hRs2]
  have hA : (d5R bf).Vt1 *
      linear_interpolation (B_data.zip P_data_5) (stepRef bf).Bts ≤ 7426980 := by
    nlinarith only [hVt1b.1, hVt1b.2, hpt1, hpt0]
  have hA2 : 2.5 * (d5R bf).Vt1 *
      linear_interpolation (B_data.zip P_data_5) (stepRef bf).Bts / 1e6 ≤ 18.57 := by
    rw [div_le_iff (by norm_num)]
    linarith only [hA]
  have hA0 : 0 ≤ 2.5 * (d5R bf).Vt1 *
      linear_interpolation (B_data.zip P_data_5) (stepRef bf).Bts / 1e6 :=
    div_nonneg (mul_nonneg (mul_nonneg (by norm_num) hVt1b.1) hpt0) (by norm_num)
  have hB : (d5R bf).Vj1 *
      linear_interpolation (B_data.zip P_data_5) (stepRef bf).Bj1 ≤ 17987940 := by
    nlinarith only [hVj1b.1, hVj1b.2, hpj1, hpj0]
  have hB2 : 2 * (d5R bf).Vj1 *
      linear_interpolation (B_data.zip P_data_5) (stepRef bf).Bj1 / 1e6 ≤ 35.98 := by
    rw [div_le_iff (by norm_num)]
    linarith only [hB]
  have hB0 : 0 ≤ 2 * (d5R bf).Vj1 *
      linear_interpolation (B_data.zip P_data_5) (stepRef bf).Bj1 / 1e6 :=
    div_nonneg (mul_nonneg (mul_nonneg (by norm_num) hVj1b.1) hpj0) (by norm_num)
  constructor
  · linarith only [hpcu0, hA0, hB0]
  · linarith only [hpcu, hA2, hB2]

lemma eta_bounds (bf : ℝ) (h0 : 0 < bf) (h451 : bf ≤ 0.451) :
    93.5 < (dFinal bf).eta_actual ∧ (dFinal bf).eta_actual < 100 := by
  obtain ⟨hp0, hp862⟩ := pSum_bounds bf h0 h451
  have heq : (dFinal bf).eta_actual =
      P0.PN * 1000 / (P0.PN * 1000 + (dFinal bf).pSum) * 100 := rfl
  rw [heq, show (P0.PN : ℝ) = 15.0 from rfl]
  have hden : (0 : ℝ) < 15.0 * 1000 + (dFinal bf).pSum := by linarith
  constructor
  · rw [div_mul_eq_mul_div, lt_div_iff hden]
    linarith only [hp862]
  · rw [div_mul_eq_mul_div, div_lt_iff hden]
    linarith only [hp0]

/-- C2 (counterexample): on the default `MotorParameters` the run does
succeed, but the computed rated current `IN` does NOT lie between 26 and
28 A - it is below 26 A (`IN = 15000·√3/1012.605 ≈ 25.66`). -/
theorem C2_counterexample :
    (calculate_all P0 d0).success = true ∧
    ∃ d, (calculate_all P0 d0).results = some d ∧ ¬(26 ≤ d.IN ∧ d.IN ≤ 28) := by
  obtain ⟨bf, h0, h1, h451, heq⟩ := refRun
  rw [heq]
  refine ⟨rfl, dFinal bf, rfl, ?_⟩
  rintro ⟨h26, -⟩
  rw [dFinal_IN] at h26
  linarith only [h26, INval_bounds.2]

/-- C2 (amended): for the reference parameter set (the defaults of
`MotorParameters`: 15 kW, 380 V, star connection, cosφ 0.95, target
efficiency 0.935, steel grade 5), `calculate_all` reports success, the
computed rated current `IN` lies between 25 and 26 A (≈ 25.66 A, just
below the originally claimed 26-28 A window), and the computed actual
efficiency lies strictly between the input target efficiency (93.5 %)
and 100 %. -/
theorem C2_reference_run :
    (calculate_all P0 d0).success = true ∧
    ∃ d, (calculate_all P0 d0).results = some d ∧
      25 < d.IN ∧ d.IN < 26 ∧
      100 * P0.eff < d.eta_actual ∧ d.eta_actual < 100 := by
  obtain ⟨bf, h0, h1, h451, heq⟩ := refRun
  rw [heq]
  have hIN := dFinal_IN bf
  have hb := INval_bounds
  have he := eta_bounds bf h0 h451
  refine ⟨rfl, dFinal bf, rfl, ?_, ?_, ?_, he.2⟩
  · rw [hIN]
    linarith only [hb.1]
  · rw [hIN]
    linarith only [hb.2]
  · rw [show (P0.eff : ℝ) = 0.935 from rfl]
    linarith only [he.1]

end PMSM

